import Mathlib

/-!
# WinWMI: a shallow embedding of `include/winwmi.hpp`

The header wraps the COM/WMI interfaces of the operating system.  The embedding
keeps the control flow of every member function of `class WinWmi` and replaces
the operating system by a `Host`: a function that answers every outgoing call
with an `HRESULT`, and a function that gives the result enumeration of a query.
Every member function returns, next to its C++ result, the list of calls it
made, in order.

Conventions of the embedding.

* A `std::wstring_view` argument is only ever consumed through `.data()`, as a
  NUL-terminated wide string.  It is represented by that string (`String`).
* A `BSTR` is `Option String`; `none` is the null `BSTR`.  A `BSTR` carries
  its length, so one that the operating system delivers may contain NUL
  characters (`Char.ofNat 0`); `SysStringLen` counts them, while a
  `std::wstring` built from the pointer stops at the first one.  The stored
  names come from `SysAllocString` of a wide string and contain none.
* A freed `BSTR` keeps its pointer value, as a released interface pointer
  does.  Where the source frees a `BSTR` that is still referenced, the model
  records it: `VariantData.bstrVal` says whether the `BSTR` is still allocated,
  and the ghost member `class_name_freed` says whether `class_name_` was freed.
* An interface pointer is `Option Handle`; `none` is `nullptr`.  A released
  pointer keeps its value, as in the source, where no pointer is ever reset.
* A member call through a null interface pointer, and appending a null
  `wchar_t*` to a `std::wstring`, have no defined behaviour.  A run that
  reaches one stops there: `Run.result` is `none`.
* `SysAllocString`, `SysFreeString`, `VariantClear` and the `Release` of
  enumerated objects manage memory only and are not part of the call list.
-/

namespace WinWMI

/-! ## Result codes and enumerations -/

/-- An `HRESULT` is a signed 32-bit value; only its sign and equality with
particular constants are inspected. -/
abbrev HRESULT := Int

/-- The constant `S_OK`. -/
def S_OK : HRESULT := 0

/-- The constant `RPC_E_TOO_LATE`, `0x80010119` as a signed 32-bit integer. -/
def RPC_E_TOO_LATE : HRESULT := -2147417831

/-- The constant `E_FAIL`, `0x80004005` as a signed 32-bit integer. -/
def E_FAIL : HRESULT := -2147467259

/-- The `FAILED` macro: `hr < 0`. -/
def FAILED (hr : HRESULT) : Bool := decide (hr < 0)

/-- The enumeration `WmiType`. -/
inductive WmiType where
  | kBool
  | kBstr
  | kUint8
  | kUint32
  deriving DecidableEq, Repr

/-- The enumeration `WmiError`. -/
inductive WmiError where
  | kNone
  | kFailedCoInitialize
  | kFailedCoInitializeSecurity
  | kFailedCoCreateInstance
  | kFailedConnectServer
  | kFailedCoSetProxyBlanket
  | kFailedGetObject
  | kFailedGetMethod
  | kFailedSpawnInstance
  | kFailedPutVariable
  | kFailedExecMethod
  | kWrongDataType
  | kEmptyClassName
  deriving DecidableEq, Repr

/-! ## Variants -/

/-- The variant type tags the wrapper writes. -/
inductive VARTYPE where
  | VT_EMPTY
  | VT_BOOL
  | VT_UI1
  | VT_UI4
  | VT_BSTR
  deriving DecidableEq, Repr

/-- The union member of a `VARIANT` that was written, with the value stored.
For `bstrVal` the value is a pointer: the string the `BSTR` was allocated with,
and whether the `BSTR` is still allocated when the variant is handed out. -/
inductive VariantData where
  | zero
  | boolVal (v : Int)
  | uintVal (v : Int)
  | bstrVal (content : String) (allocated : Bool)
  deriving DecidableEq, Repr

/-- A `VARIANT` as the wrapper builds it: value-initialised, then `vt` and one
union member assigned. -/
structure VARIANT where
  vt : VARTYPE
  data : VariantData
  deriving DecidableEq, Repr

/-- Conversion of an integer to `VARIANT_BOOL` (a signed 16-bit `short`). -/
def toVariantBool (v : Int) : Int := (v + 2 ^ 15) % 2 ^ 16 - 2 ^ 15

/-- Conversion of an integer to `UINT` (unsigned 32-bit). -/
def toUInt (v : Int) : Int := v % 2 ^ 32

/-- The low bytes of the union of a value-initialised variant after one integer
member was written, as an unsigned little-endian number: `boolVal` fills two
bytes, `uintVal` four, and the members overlap from the first byte on. -/
def VariantData.bits : VariantData → Option Int
  | VariantData.zero => some 0
  | VariantData.boolVal v => some (v % 2 ^ 16)
  | VariantData.uintVal v => some (v % 2 ^ 32)
  | VariantData.bstrVal _ _ => none

/-- The integer a reader of the variant gets through the union member its tag
selects, on the little-endian layout of the union: the 16-bit signed `boolVal`
for `VT_BOOL`, the 8-bit `bVal` for `VT_UI1`, the 32-bit `ulVal` for `VT_UI4`;
`none` for the other tags. -/
def VARIANT.taggedInt (v : VARIANT) : Option Int :=
  match v.vt with
  | VARTYPE.VT_BOOL => v.data.bits.map (fun b => toVariantBool (b % 2 ^ 16))
  | VARTYPE.VT_UI1 => v.data.bits.map (fun b => b % 2 ^ 8)
  | VARTYPE.VT_UI4 => v.data.bits.map (fun b => b % 2 ^ 32)
  | _ => none

/-! ## Interface pointers, calls and the host -/

/-- The COM objects the wrapper can hold a pointer to. -/
inductive Handle where
  | locator
  | service
  | classObject
  | methodParams
  | paramInstance
  deriving DecidableEq, Repr

/-- The outgoing calls that are traced, with the arguments the wrapper chooses.
The first argument of a member call is the object it is made on. -/
inductive Call where
  | CoInitializeEx
  | CoInitializeSecurity
  | CoCreateInstance
  | ConnectServer (obj : Handle) (namespace_name : String)
  | CoSetProxyBlanket (proxy : Handle)
  | GetObject (obj : Handle) (class_name : Option String)
  | GetMethod (obj : Handle) (method_name : Option String)
  | SpawnInstance (obj : Handle)
  | Release (obj : Handle)
  | CoUninitialize
  | ExecQuery (obj : Handle) (query : String)
  | Put (obj : Handle) (name : String) (var_cmd : VARIANT)
  | ExecMethod (obj : Handle) (exec_class : Option String)
      (method_name : Option String) (in_params : Option Handle)
  deriving DecidableEq, Repr

/-- What `IWbemClassObject::Get` gives for one property: the result code and
the members of the returned variant that the wrapper reads. -/
structure PropertyRead where
  hr : HRESULT
  bstrVal : Option String
  boolVal : Int
  uintVal : Int

/-- An enumerated object, seen through `Get(variable, ...)`. -/
abbrev IWbemClassObject := String → PropertyRead

/-- A finite result enumeration: the objects that successive calls of `Next`
deliver before the first call that comes back with `u_return == 0`. -/
abbrev IEnumWbemClassObject := List IWbemClassObject

/-- The operating system: the result code of every outgoing call, and the
enumerator pointer that `ExecQuery` stores for a query text. -/
structure Host where
  hresult : Call → HRESULT
  enumerator : String → Option IEnumWbemClassObject

/-- The function `SysStringLen`; the length of a null `BSTR` is zero. -/
def SysStringLen (b : Option String) : Nat :=
  match b with
  | none => 0
  | some s => s.length

/-- The NUL character, which ends a wide string read through a pointer. -/
def NUL : Char := Char.ofNat 0

/-- Construction of a `std::wstring` from a non-null `BSTR` through its
`wchar_t*`: the characters before the first NUL. -/
def wstringOfBstr (b : Option String) : String :=
  match b with
  | none => ""
  | some s => String.mk (s.data.takeWhile (fun c => c != NUL))

/-! ## The wrapper object -/

/-- The data members of `class WinWmi`, with their default initialisers, and
the ghost member `class_name_freed`: whether `SysFreeString` was called on the
`BSTR` that `class_name_` still points to. -/
structure WinWmi where
  last_error_ : WmiError := WmiError.kNone
  result_ : HRESULT := 0
  wbem_service_ : Option Handle := none
  wbem_locator_ : Option Handle := none
  class_ : Option Handle := none
  param_ : Option Handle := none
  class_instance_ : Option Handle := none
  method_name_ : Option String := none
  class_name_ : Option String := none
  class_name_string_ : String := ""
  class_name_freed : Bool := false
  deriving DecidableEq, Repr

/-- The outcome of running a member function: the calls made, in order, and
the returned value with the object afterwards; `result = none` when the run
reached a call with no defined behaviour. -/
structure Run (α : Type) where
  calls : List Call
  result : Option (α × WinWmi)

/-- The value a run returned, if it returned. -/
def Run.value {α : Type} (r : Run α) : Option α := r.result.map Prod.fst

/-- The object after a run, if it returned. -/
def Run.self {α : Type} (r : Run α) : Option WinWmi := r.result.map Prod.snd

/-- The member `GetLastError`. -/
def WinWmi.GetLastError (self : WinWmi) : WmiError := self.last_error_

/-- What `GetLastError()` gives after a run, if it returned. -/
def Run.lastError {α : Type} (r : Run α) : Option WmiError :=
  r.result.map (fun p => p.2.GetLastError)

/-! ## Constructor and destructor -/

/-- The lambda `wmi_cleanup` of the constructor. -/
def WinWmi.wmi_cleanup (self : WinWmi) (error : Option WmiError) : Run Unit :=
  let self := { self with last_error_ := error.getD WmiError.kNone }
  match self.wbem_service_ with
  | none => ⟨[], none⟩
  | some svc =>
    match self.wbem_locator_ with
    | none => ⟨[Call.Release svc], none⟩
    | some loc => ⟨[Call.Release svc, Call.Release loc, Call.CoUninitialize], some ((), self)⟩

/-- The tail of the constructor: resolving the class and the method and
spawning the parameter instance (source lines 156-178). -/
def WinWmi.resolve (self : WinWmi) (host : Host) (calls : List Call) : Run Unit :=
  if SysStringLen self.class_name_ != 0 && SysStringLen self.method_name_ != 0 then
    match self.wbem_service_ with
    | none => ⟨calls, none⟩
    | some svc =>
      let c6 := Call.GetObject svc self.class_name_
      let self := { self with result_ := host.hresult c6 }
      let calls := calls ++ [c6]
      if FAILED self.result_ then
        let r := self.wmi_cleanup (some WmiError.kFailedGetObject)
        ⟨calls ++ r.calls, r.result⟩
      else
        let self := { self with class_ := some Handle.classObject }
        let c7 := Call.GetMethod Handle.classObject self.method_name_
        let self := { self with result_ := host.hresult c7 }
        let calls := calls ++ [c7]
        if FAILED self.result_ then
          let r := self.wmi_cleanup (some WmiError.kFailedGetMethod)
          ⟨calls ++ r.calls, r.result⟩
        else
          let self := { self with param_ := some Handle.methodParams }
          let c8 := Call.SpawnInstance Handle.methodParams
          let self := { self with result_ := host.hresult c8 }
          let calls := calls ++ [c8]
          if FAILED self.result_ then
            let r := self.wmi_cleanup (some WmiError.kFailedSpawnInstance)
            ⟨calls ++ r.calls, r.result⟩
          else
            ⟨calls, some ((), { self with class_instance_ := some Handle.paramInstance })⟩
  else
    ⟨calls, some ((), self)⟩

/-- The constructor `WinWmi::WinWmi(namespace_name, class_name, method_name)`.
An out-pointer is non-null exactly when the call that fills it succeeded. -/
def WinWmi.construct (host : Host) (namespace_name : String)
    (class_name method_name : Option String) : Run Unit :=
  let self : WinWmi :=
    { method_name_ := method_name
      class_name_ := class_name
      class_name_string_ := class_name.getD "" }
  let self := { self with result_ := host.hresult Call.CoInitializeEx }
  let calls := [Call.CoInitializeEx]
  if FAILED self.result_ then
    ⟨calls, some ((), { self with last_error_ := WmiError.kFailedCoInitialize })⟩
  else
    let self := { self with result_ := host.hresult Call.CoInitializeSecurity }
    let calls := calls ++ [Call.CoInitializeSecurity]
    if FAILED self.result_ && self.result_ != RPC_E_TOO_LATE then
      ⟨calls ++ [Call.CoUninitialize],
        some ((), { self with last_error_ := WmiError.kFailedCoInitializeSecurity })⟩
    else
      let self := { self with result_ := host.hresult Call.CoCreateInstance }
      let calls := calls ++ [Call.CoCreateInstance]
      if FAILED self.result_ then
        ⟨calls ++ [Call.CoUninitialize],
          some ((), { self with last_error_ := WmiError.kFailedCoCreateInstance })⟩
      else
        let self := { self with wbem_locator_ := some Handle.locator }
        let c4 := Call.ConnectServer Handle.locator namespace_name
        let self := { self with result_ := host.hresult c4 }
        let calls := calls ++ [c4]
        if FAILED self.result_ then
          ⟨calls ++ [Call.Release Handle.locator, Call.CoUninitialize],
            some ((), { self with last_error_ := WmiError.kFailedConnectServer })⟩
        else
          let self := { self with wbem_service_ := some Handle.service }
          let c5 := Call.CoSetProxyBlanket Handle.service
          let self := { self with result_ := host.hresult c5 }
          let calls := calls ++ [c5]
          if FAILED self.result_ then
            let r := self.wmi_cleanup (some WmiError.kFailedCoSetProxyBlanket)
            ⟨calls ++ r.calls, r.result⟩
          else
            self.resolve host calls

/-- The calls `if (p) p->Release();` makes. -/
def releaseIfSet (p : Option Handle) : List Call :=
  match p with
  | none => []
  | some h => [Call.Release h]

/-- The destructor `WinWmi::~WinWmi()`: the calls it makes. -/
def WinWmi.destruct (self : WinWmi) : List Call :=
  releaseIfSet self.class_ ++ releaseIfSet self.class_instance_ ++ releaseIfSet self.param_
    ++ releaseIfSet self.wbem_locator_ ++ releaseIfSet self.wbem_service_
    ++ [Call.CoUninitialize]

/-- The calls of a whole lifetime: the constructor, then the destructor on the
object the constructor left. -/
def lifetime (host : Host) (namespace_name : String)
    (class_name method_name : Option String) : List Call :=
  let r := WinWmi.construct host namespace_name class_name method_name
  match r.result with
  | none => r.calls
  | some (_, self) => r.calls ++ self.destruct

/-! ## Queries -/

/-- The member `create_query`.  `none` when a null `class_name_` is appended to
the query string. -/
def WinWmi.create_query (self : WinWmi) (class_name : Option String) : Option String :=
  let query := "SELECT * FROM "
  match class_name with
  | some c => some (query ++ c)
  | none =>
    match self.class_name_ with
    | some k => some (query ++ k)
    | none => none

/-- The member `is_class_name_valid`. -/
def WinWmi.is_class_name_valid (self : WinWmi) (class_name : Option String) : Bool :=
  class_name.isSome && SysStringLen self.class_name_ != 0

/-- The member `exec_query`: one `ExecQuery` call on `wbem_service_`; it gives
the result code and the enumerator pointer. -/
def WinWmi.exec_query (self : WinWmi) (host : Host) (query : String) :
    Run (HRESULT × Option IEnumWbemClassObject) :=
  match self.wbem_service_ with
  | none => ⟨[], none⟩
  | some svc =>
    let c := Call.ExecQuery svc query
    ⟨[c], some ((host.hresult c, host.enumerator query), self)⟩

/-- The `while` loop of `get_all`, on the objects still to be enumerated and
the vector `objects` built so far. -/
def get_all_loop (variable_name : String) :
    IEnumWbemClassObject → List String → List String
  | [], objects => objects
  | class_object :: enumerator, objects =>
    let vt_prop := class_object variable_name
    if vt_prop.hr != S_OK then objects
    else if SysStringLen vt_prop.bstrVal != 0 then
      get_all_loop variable_name enumerator (objects ++ [wstringOfBstr vt_prop.bstrVal])
    else
      get_all_loop variable_name enumerator objects

/-- The member `get_all(variable, class_name)`. -/
def WinWmi.get_all (self : WinWmi) (host : Host) (variable_name : String)
    (class_name : Option String) : Run (Option (List String)) :=
  if !self.is_class_name_valid class_name then
    ⟨[], some (none, { self with last_error_ := WmiError.kEmptyClassName })⟩
  else
    match self.create_query class_name with
    | none => ⟨[], none⟩
    | some query =>
      let q := self.exec_query host query
      match q.result with
      | none => ⟨q.calls, none⟩
      | some ((hr, enumerator), self) =>
        if FAILED hr then ⟨q.calls, some (none, self)⟩
        else
          match enumerator with
          | none => ⟨q.calls, some (some [], self)⟩
          | some objs => ⟨q.calls, some (some (get_all_loop variable_name objs []), self)⟩

/-- The `while` loop of the string `get`, on the objects still to be
enumerated and the current `value`. -/
def get_loop (variable_name : String) :
    IEnumWbemClassObject → Option String → Option String
  | [], value => value
  | class_object :: enumerator, value =>
    let vt_prop := class_object variable_name
    if vt_prop.hr != S_OK then value
    else if SysStringLen vt_prop.bstrVal == 0 then
      get_loop variable_name enumerator none
    else
      get_loop variable_name enumerator (some (wstringOfBstr vt_prop.bstrVal))

/-- The member `get(variable, class_name)` that returns a string. -/
def WinWmi.get (self : WinWmi) (host : Host) (variable_name : String)
    (class_name : Option String) : Run (Option String) :=
  if !self.is_class_name_valid class_name then
    ⟨[], some (none, { self with last_error_ := WmiError.kEmptyClassName })⟩
  else
    match self.create_query class_name with
    | none => ⟨[], none⟩
    | some query =>
      let q := self.exec_query host query
      match q.result with
      | none => ⟨q.calls, none⟩
      | some ((hr, enumerator), self) =>
        if FAILED hr then ⟨q.calls, some (none, self)⟩
        else
          match enumerator with
          | none => ⟨q.calls, some (none, self)⟩
          | some objs => ⟨q.calls, some (get_loop variable_name objs none, self)⟩

/-- The `while` loop of the typed `get<T>`, on the objects still to be
enumerated, the object and the referenced `value`.  The assignment to `value`
converts the member read to the value type of `T`; `toT` is that conversion. -/
def get_T_loop (toT : Int → Int) (variable_name : String) (type : WmiType) :
    IEnumWbemClassObject → WinWmi × Option Int → WinWmi × Option Int
  | [], state => state
  | class_object :: enumerator, (self, value) =>
    let vt_prop := class_object variable_name
    if vt_prop.hr != S_OK then (self, value)
    else
      match type with
      | WmiType.kBool =>
        get_T_loop toT variable_name type enumerator (self, some (toT vt_prop.boolVal))
      | WmiType.kUint8 =>
        get_T_loop toT variable_name type enumerator (self, some (toT vt_prop.uintVal))
      | WmiType.kUint32 =>
        get_T_loop toT variable_name type enumerator (self, some (toT vt_prop.uintVal))
      | _ =>
        get_T_loop toT variable_name type enumerator
          ({ self with last_error_ := WmiError.kWrongDataType }, none)

/-- The member template `get<T>(variable, type, value, class_name)`; `T` is an
optional of an integer type, `toT` the conversion of an integer to that type,
and the run returns the `bool` and the final `value`. -/
def WinWmi.get_T (self : WinWmi) (host : Host) (toT : Int → Int) (variable_name : String)
    (type : WmiType) (value : Option Int) (class_name : Option String) :
    Run (Bool × Option Int) :=
  if self.is_class_name_valid class_name then
    ⟨[], some ((false, value), { self with last_error_ := WmiError.kEmptyClassName })⟩
  else
    match self.create_query class_name with
    | none => ⟨[], none⟩
    | some query =>
      let q := self.exec_query host query
      match q.result with
      | none => ⟨q.calls, none⟩
      | some ((hr, enumerator), self) =>
        if FAILED hr then ⟨q.calls, some ((false, value), self)⟩
        else
          match enumerator with
          | none => ⟨q.calls, some ((true, value), self)⟩
          | some objs =>
            let state := get_T_loop toT variable_name type objs (self, value)
            ⟨q.calls, some ((true, state.2), state.1)⟩

/-! ## Method invocation -/

/-- The local `exec_class` of both `set` members: a fresh copy of the argument
when one is supplied, else the pointer `class_name_` itself. -/
def WinWmi.exec_class (self : WinWmi) (class_name : Option String) : Option String :=
  match class_name with
  | some c => some c
  | none => self.class_name_

/-- The common tail of both `set` members (source lines 374-401 and 446-473):
`Put` on `class_instance_`, then `ExecMethod` on `wbem_service_`, then
`SysFreeString(exec_class)`, which frees the member `class_name_` when the
argument was omitted and `class_name_` is not null. -/
def WinWmi.put_and_exec (self : WinWmi) (host : Host) (variable_name : String)
    (class_name : Option String) (var_cmd : VARIANT) : Run Bool :=
  let exec_class := self.exec_class class_name
  match self.class_instance_ with
  | none => ⟨[], none⟩
  | some inst =>
    let c1 := Call.Put inst variable_name var_cmd
    let self := { self with result_ := host.hresult c1 }
    if FAILED self.result_ then
      ⟨[c1], some (false, { self with last_error_ := WmiError.kFailedPutVariable })⟩
    else
      match self.wbem_service_ with
      | none => ⟨[c1], none⟩
      | some svc =>
        let c2 := Call.ExecMethod svc exec_class self.method_name_ self.class_instance_
        let self := { self with result_ := host.hresult c2 }
        if FAILED self.result_ then
          ⟨[c1, c2], some (false, { self with last_error_ := WmiError.kFailedExecMethod })⟩
        else
          ⟨[c1, c2], some (true, { self with
            class_name_freed :=
              self.class_name_freed || (class_name.isNone && self.class_name_.isSome) })⟩

/-- The member `set(variable, value, class_name)` that takes a string.  The
`BSTR` assigned to `bstrVal` belongs to a temporary `_bstr_t`, destroyed at the
end of the assignment: the variant holds a pointer to a freed `BSTR` (which
`VariantClear` frees once more after a successful call). -/
def WinWmi.set (self : WinWmi) (host : Host) (variable_name : String) (value : String)
    (class_name : Option String) : Run Bool :=
  if self.is_class_name_valid class_name then
    ⟨[], some (false, { self with last_error_ := WmiError.kEmptyClassName })⟩
  else
    let var_cmd : VARIANT := ⟨VARTYPE.VT_BSTR, VariantData.bstrVal value false⟩
    self.put_and_exec host variable_name class_name var_cmd

/-- The member template `set<T>(variable, type, value, class_name)`; the
caller's `value` is an integer, converted on assignment to the union member. -/
def WinWmi.set_T (self : WinWmi) (host : Host) (variable_name : String) (type : WmiType)
    (value : Int) (class_name : Option String) : Run Bool :=
  if self.is_class_name_valid class_name then
    ⟨[], some (false, { self with last_error_ := WmiError.kEmptyClassName })⟩
  else
    match type with
    | WmiType.kBool =>
      self.put_and_exec host variable_name class_name
        ⟨VARTYPE.VT_BOOL, VariantData.boolVal (toVariantBool value)⟩
    | WmiType.kUint8 =>
      self.put_and_exec host variable_name class_name
        ⟨VARTYPE.VT_UI1, VariantData.uintVal (toUInt value)⟩
    | WmiType.kUint32 =>
      self.put_and_exec host variable_name class_name
        ⟨VARTYPE.VT_UI4, VariantData.uintVal (toUInt value)⟩
    | _ => ⟨[], some (false, { self with last_error_ := WmiError.kWrongDataType })⟩

/-! ## The connection sequence, as specified -/

/-- The steps of the connection sequence, in the order of the specification. -/
inductive Step where
  | CoInitializeEx
  | CoInitializeSecurity
  | CoCreateInstance
  | ConnectServer
  | CoSetProxyBlanket
  | GetObject
  | GetMethod
  | SpawnInstance
  deriving DecidableEq, Repr

/-- The error code the specification attaches to a step. -/
def Step.code : Step → WmiError
  | Step.CoInitializeEx => WmiError.kFailedCoInitialize
  | Step.CoInitializeSecurity => WmiError.kFailedCoInitializeSecurity
  | Step.CoCreateInstance => WmiError.kFailedCoCreateInstance
  | Step.ConnectServer => WmiError.kFailedConnectServer
  | Step.CoSetProxyBlanket => WmiError.kFailedCoSetProxyBlanket
  | Step.GetObject => WmiError.kFailedGetObject
  | Step.GetMethod => WmiError.kFailedGetMethod
  | Step.SpawnInstance => WmiError.kFailedSpawnInstance

/-- The call that performs a step of the constructor. -/
def Step.call (namespace_name : String) (class_name method_name : Option String) :
    Step → Call
  | Step.CoInitializeEx => Call.CoInitializeEx
  | Step.CoInitializeSecurity => Call.CoInitializeSecurity
  | Step.CoCreateInstance => Call.CoCreateInstance
  | Step.ConnectServer => Call.ConnectServer Handle.locator namespace_name
  | Step.CoSetProxyBlanket => Call.CoSetProxyBlanket Handle.service
  | Step.GetObject => Call.GetObject Handle.service class_name
  | Step.GetMethod => Call.GetMethod Handle.classObject method_name
  | Step.SpawnInstance => Call.SpawnInstance Handle.methodParams

/-- Whether a call is one of the eight steps (and not a cleanup call). -/
def Call.isStep : Call → Bool
  | Call.CoInitializeEx => true
  | Call.CoInitializeSecurity => true
  | Call.CoCreateInstance => true
  | Call.ConnectServer _ _ => true
  | Call.CoSetProxyBlanket _ => true
  | Call.GetObject _ _ => true
  | Call.GetMethod _ _ => true
  | Call.SpawnInstance _ => true
  | _ => false

/-- A name was given and is not the empty string. -/
def nonEmptyName (name : Option String) : Bool :=
  match name with
  | none => false
  | some s => s != ""

/-- The steps the specification schedules: the five connection steps, then the
three resolution steps only when both names are non-empty. -/
def plannedSteps (class_name method_name : Option String) : List Step :=
  [Step.CoInitializeEx, Step.CoInitializeSecurity, Step.CoCreateInstance,
    Step.ConnectServer, Step.CoSetProxyBlanket]
  ++ (if nonEmptyName class_name && nonEmptyName method_name then
        [Step.GetObject, Step.GetMethod, Step.SpawnInstance]
      else [])

/-- Whether a step counts as failed given its result code: a negative code,
except that `RPC_E_TOO_LATE` from `CoInitializeSecurity` is not a failure. -/
def Step.failsWith (s : Step) (hr : HRESULT) : Bool :=
  match s with
  | Step.CoInitializeSecurity => FAILED hr && hr != RPC_E_TOO_LATE
  | _ => FAILED hr

/-- The steps performed: the scheduled steps up to and including the first
that fails. -/
def performedSteps (fails : Step → Bool) : List Step → List Step
  | [] => []
  | s :: rest => if fails s then [s] else s :: performedSteps fails rest

/-- The error the specification reports: the code of the first failing step,
`kNone` when no step fails. -/
def expectedError (fails : Step → Bool) (steps : List Step) : WmiError :=
  match steps.find? fails with
  | some s => s.code
  | none => WmiError.kNone

/-- Whether a step of a constructor run fails: the host's answer to the
step's call, judged by `Step.failsWith`. -/
def stepFails (host : Host) (namespace_name : String) (class_name method_name : Option String)
    (s : Step) : Bool :=
  s.failsWith (host.hresult (s.call namespace_name class_name method_name))

/-! ## The readers, as specified -/

/-- The objects of an enumeration that precede the first object whose `Get` of
the requested property does not return `S_OK` (all of them if none fails). -/
def readableObjects (variable_name : String) (objs : IEnumWbemClassObject) :
    IEnumWbemClassObject :=
  objs.takeWhile (fun o => (o variable_name).hr == S_OK)

/-- The string value of the requested property of an object: the whole
content of the `BSTR`, with the empty string for a null `BSTR`. -/
def propertyString (variable_name : String) (o : IWbemClassObject) : String :=
  match (o variable_name).bstrVal with
  | none => ""
  | some s => s

/-- What the specification states `get_all` returns: the non-empty property
strings of the readable objects, in enumeration order. -/
def claimedAll (variable_name : String) (objs : IEnumWbemClassObject) : List String :=
  ((readableObjects variable_name objs).map (propertyString variable_name)).filter
    (fun s => s != "")

/-- What the specification states the string `get` returns: the property
string of the last readable object, and nullopt when that string is empty or
there is no readable object. -/
def claimedLast (variable_name : String) (objs : IEnumWbemClassObject) : Option String :=
  match (readableObjects variable_name objs).getLast? with
  | none => none
  | some o => if propertyString variable_name o = "" then none
      else some (propertyString variable_name o)

/-- The property string as the wrapper copies it: the characters before the
first NUL. -/
def copiedString (variable_name : String) (o : IWbemClassObject) : String :=
  wstringOfBstr (o variable_name).bstrVal

/-- The amended result of `get_all`: of the readable objects those whose
`BSTR` has a non-zero length, each giving its copied string. -/
def expectedAll (variable_name : String) (objs : IEnumWbemClassObject) : List String :=
  ((readableObjects variable_name objs).filter
      (fun o => SysStringLen (o variable_name).bstrVal != 0)).map
    (copiedString variable_name)

/-- The amended result of the string `get`: the copied string of the last
readable object, and nullopt when the `BSTR` of that object has length zero or
there is no readable object. -/
def expectedLast (variable_name : String) (objs : IEnumWbemClassObject) : Option String :=
  match (readableObjects variable_name objs).getLast? with
  | none => none
  | some o => if SysStringLen (o variable_name).bstrVal = 0 then none
      else some (copiedString variable_name o)

/-- No property string of the enumeration contains a NUL character. -/
def nulFree (variable_name : String) (objs : IEnumWbemClassObject) : Prop :=
  ∀ o ∈ objs, ∀ c ∈ (propertyString variable_name o).data, c ≠ NUL

/-- A string of two characters that starts with NUL. -/
def nulThenX : String := String.mk [NUL, 'x']

/-- An enumerated object whose every property reads as the string `s`. -/
def objectWithString (s : String) : IWbemClassObject :=
  fun _ => { hr := S_OK, bstrVal := some s, boolVal := 0, uintVal := 0 }

/-- An enumerated object on which `Get` fails with `E_FAIL`. -/
def objectFailing : IWbemClassObject :=
  fun _ => { hr := E_FAIL, bstrVal := none, boolVal := 0, uintVal := 0 }

/-- A host that answers `S_OK` to every call and whose every query enumerates
`objs`. -/
def hostEnumerating (objs : IEnumWbemClassObject) : Host :=
  { hresult := fun _ => S_OK
    enumerator := fun _ => some objs }

/-! ## The objects a program can hold -/

/-- The objects a program can hold after the constructor ran with the given
arguments on `host`: the object the constructor left, with the members that
the other member functions write (`last_error_`, `result_` and the ghost
`class_name_freed`) holding any values. -/
def builtBy (host : Host) (namespace_name : String) (class_name method_name : Option String)
    (w : WinWmi) : Prop :=
  ∃ w0, (WinWmi.construct host namespace_name class_name method_name).self = some w0
    ∧ w = { w0 with
        last_error_ := w.last_error_
        result_ := w.result_
        class_name_freed := w.class_name_freed }

/-! ## Sample hosts and objects -/

/-- A host that answers `S_OK` to every call and stores no enumerator. -/
def hostOk : Host :=
  { hresult := fun _ => S_OK
    enumerator := fun _ => none }

/-- A host that answers `hr` to the call `c` and `S_OK` to every other call. -/
def hostAnswering (c : Call) (hr : HRESULT) : Host :=
  { hresult := fun x => if x = c then hr else S_OK
    enumerator := fun _ => none }

/-- The object a constructor run leaves when every call succeeds, for class
`Win32_Process` and method `Create`. -/
def sampleWmi : WinWmi :=
  { wbem_service_ := some Handle.service
    wbem_locator_ := some Handle.locator
    class_ := some Handle.classObject
    param_ := some Handle.methodParams
    class_instance_ := some Handle.paramInstance
    method_name_ := some "Create"
    class_name_ := some "Win32_Process"
    class_name_string_ := "Win32_Process" }

/-- The object the constructor leaves for class `Win32_Process` and method
`Create` when CoInitializeEx answers `E_FAIL`: no pointer is set. -/
def sampleNoService : WinWmi :=
  { last_error_ := WmiError.kFailedCoInitialize
    result_ := E_FAIL
    method_name_ := some "Create"
    class_name_ := some "Win32_Process"
    class_name_string_ := "Win32_Process" }

/-- The object the constructor leaves when no class name and no method name
are given and every call succeeds: locator and service, no parameter instance. -/
def sampleNoClass : WinWmi :=
  { wbem_service_ := some Handle.service
    wbem_locator_ := some Handle.locator }

/-! # Theorems -/

/-- The length of a string is zero exactly for the empty string. -/
theorem string_length_eq_zero (s : String) : s.length = 0 ↔ s = "" := by
  rcases s with ⟨l⟩
  cases l with
  | nil => exact ⟨fun _ => rfl, fun _ => rfl⟩
  | cons c cs =>
    constructor
    · intro h
      simp [String.length] at h
    · intro h
      exact absurd (congrArg String.data h) (by simp)

/-- The test `SysStringLen(b) != 0` holds exactly for a given, non-empty name. -/
theorem sysStringLen_bne_zero (b : Option String) :
    (SysStringLen b != 0) = nonEmptyName b := by
  cases b with
  | none => rfl
  | some s =>
    by_cases h : s = ""
    · subst h; rfl
    · have h2 : s.length ≠ 0 := fun e => h ((string_length_eq_zero s).1 e)
      have e1 : (s.length != 0) = true := bne_iff_ne.2 h2
      have e2 : (s != "") = true := bne_iff_ne.2 h
      simp only [SysStringLen, nonEmptyName, e1, e2]

/-! ## The constructor -/

/-- The constructor performs the scheduled steps up to the first failing one
and records that step's code. -/
theorem construct_sequence (host : Host) (namespace_name : String)
    (class_name method_name : Option String) :
    ((WinWmi.construct host namespace_name class_name method_name).calls.filter Call.isStep
        = (performedSteps (stepFails host namespace_name class_name method_name)
            (plannedSteps class_name method_name)).map
            (Step.call namespace_name class_name method_name))
      ∧ (WinWmi.construct host namespace_name class_name method_name).lastError
        = some (expectedError (stepFails host namespace_name class_name method_name)
            (plannedSteps class_name method_name)) := by
  simp only [WinWmi.construct, WinWmi.resolve, WinWmi.wmi_cleanup, plannedSteps,
    sysStringLen_bne_zero]
  by_cases h1 : FAILED (host.hresult Call.CoInitializeEx) = true
  · simp [h1, performedSteps, expectedError, stepFails, Step.failsWith, Step.call, Call.isStep,
      Run.lastError, WinWmi.GetLastError, Step.code]
  by_cases h2 : (FAILED (host.hresult Call.CoInitializeSecurity)
      && host.hresult Call.CoInitializeSecurity != RPC_E_TOO_LATE) = true
  · simp [h1, h2, performedSteps, expectedError, stepFails, Step.failsWith, Step.call, Call.isStep,
      Run.lastError, WinWmi.GetLastError, Step.code]
  by_cases h3 : FAILED (host.hresult Call.CoCreateInstance) = true
  · simp [h1, h2, h3, performedSteps, expectedError, stepFails, Step.failsWith, Step.call, Call.isStep,
      Run.lastError, WinWmi.GetLastError, Step.code]
  by_cases h4 : FAILED (host.hresult (Call.ConnectServer Handle.locator namespace_name)) = true
  · simp [h1, h2, h3, h4, performedSteps, expectedError, stepFails, Step.failsWith, Step.call, Call.isStep,
      Run.lastError, WinWmi.GetLastError, Step.code]
  by_cases h5 : FAILED (host.hresult (Call.CoSetProxyBlanket Handle.service)) = true
  · simp [h1, h2, h3, h4, h5, performedSteps, expectedError, stepFails, Step.failsWith, Step.call, Call.isStep,
      Run.lastError, WinWmi.GetLastError, Step.code]
  by_cases hn : (nonEmptyName class_name && nonEmptyName method_name) = true
  swap
  · simp [h1, h2, h3, h4, h5, hn, performedSteps, expectedError, stepFails, Step.failsWith, Step.call, Call.isStep,
      Run.lastError, WinWmi.GetLastError, Step.code]
  by_cases h6 : FAILED (host.hresult (Call.GetObject Handle.service class_name)) = true
  · simp [h1, h2, h3, h4, h5, hn, h6, performedSteps, expectedError, stepFails, Step.failsWith, Step.call, Call.isStep,
      Run.lastError, WinWmi.GetLastError, Step.code]
  by_cases h7 : FAILED (host.hresult (Call.GetMethod Handle.classObject method_name)) = true
  · simp [h1, h2, h3, h4, h5, hn, h6, h7, performedSteps, expectedError, stepFails, Step.failsWith, Step.call, Call.isStep,
      Run.lastError, WinWmi.GetLastError, Step.code]
  by_cases h8 : FAILED (host.hresult (Call.SpawnInstance Handle.methodParams)) = true
  · simp [h1, h2, h3, h4, h5, hn, h6, h7, h8, performedSteps, expectedError, stepFails, Step.failsWith, Step.call, Call.isStep,
      Run.lastError, WinWmi.GetLastError, Step.code]
  · simp [h1, h2, h3, h4, h5, hn, h6, h7, h8, performedSteps, expectedError, stepFails, Step.failsWith, Step.call, Call.isStep,
      Run.lastError, WinWmi.GetLastError, Step.code]

/-- The constructor always returns, and the object it leaves stores the class
name and the method name it was given. -/
theorem construct_stores_names (host : Host) (namespace_name : String)
    (class_name method_name : Option String) :
    ∃ w, (WinWmi.construct host namespace_name class_name method_name).self = some w
      ∧ w.class_name_ = class_name ∧ w.method_name_ = method_name := by
  simp only [WinWmi.construct, WinWmi.resolve, WinWmi.wmi_cleanup, Run.self]
  by_cases h1 : FAILED (host.hresult Call.CoInitializeEx) = true
  · simp [h1]
  by_cases h2 : (FAILED (host.hresult Call.CoInitializeSecurity)
      && host.hresult Call.CoInitializeSecurity != RPC_E_TOO_LATE) = true
  · simp [h1, h2]
  by_cases h3 : FAILED (host.hresult Call.CoCreateInstance) = true
  · simp [h1, h2, h3]
  by_cases h4 : FAILED (host.hresult (Call.ConnectServer Handle.locator namespace_name)) = true
  · simp [h1, h2, h3, h4]
  by_cases h5 : FAILED (host.hresult (Call.CoSetProxyBlanket Handle.service)) = true
  · simp [h1, h2, h3, h4, h5]
  by_cases hn : (SysStringLen class_name != 0 && SysStringLen method_name != 0) = true
  swap
  · simp [h1, h2, h3, h4, h5, hn]
  by_cases h6 : FAILED (host.hresult (Call.GetObject Handle.service class_name)) = true
  · simp [h1, h2, h3, h4, h5, hn, h6]
  by_cases h7 : FAILED (host.hresult (Call.GetMethod Handle.classObject method_name)) = true
  · simp [h1, h2, h3, h4, h5, hn, h6, h7]
  by_cases h8 : FAILED (host.hresult (Call.SpawnInstance Handle.methodParams)) = true
  · simp [h1, h2, h3, h4, h5, hn, h6, h7, h8]
  · simp [h1, h2, h3, h4, h5, hn, h6, h7, h8]

/-- The error reported is never the code of a step that does not fail. -/
theorem expectedError_ne_code (fails : Step → Bool) (steps : List Step) (s : Step)
    (h : fails s = false) : expectedError fails steps ≠ s.code := by
  unfold expectedError
  cases hfind : steps.find? fails with
  | none => cases s <;> simp [Step.code]
  | some t =>
    have ht : fails t = true := List.find?_some hfind
    have hne : t ≠ s := fun e => by rw [e, h] at ht; exact Bool.false_ne_true ht
    revert hne
    cases t <;> cases s <;> simp [Step.code]

/-- C1: for every host (every combination of results of the OS calls) and every
constructor argument, the constructor returns; its step calls are, in order,
CoInitializeEx, CoInitializeSecurity, CoCreateInstance, ConnectServer,
CoSetProxyBlanket and, only when class name and method name are both
non-empty, GetObject, GetMethod, SpawnInstance, cut after the first failing
step; GetLastError() is then that step's code, and kNone when no step fails;
and RPC_E_TOO_LATE from CoInitializeSecurity lets the sequence go on to
CoCreateInstance without recording kFailedCoInitializeSecurity. -/
theorem C1_constructor_steps_and_error (host : Host) (namespace_name : String)
    (class_name method_name : Option String) :
    ((WinWmi.construct host namespace_name class_name method_name).calls.filter Call.isStep
        = (performedSteps (stepFails host namespace_name class_name method_name)
            (plannedSteps class_name method_name)).map
            (Step.call namespace_name class_name method_name))
      ∧ (WinWmi.construct host namespace_name class_name method_name).lastError
        = some (expectedError (stepFails host namespace_name class_name method_name)
            (plannedSteps class_name method_name))
      ∧ (FAILED (host.hresult Call.CoInitializeEx) = false →
          host.hresult Call.CoInitializeSecurity = RPC_E_TOO_LATE →
          Call.CoCreateInstance
              ∈ (WinWmi.construct host namespace_name class_name method_name).calls
            ∧ (WinWmi.construct host namespace_name class_name method_name).lastError
              ≠ some WmiError.kFailedCoInitializeSecurity) := by
  have hseq := construct_sequence host namespace_name class_name method_name
  refine ⟨hseq.1, hseq.2, ?_⟩
  intro h1 h2
  have hs1 : stepFails host namespace_name class_name method_name Step.CoInitializeEx = false := by
    simp [stepFails, Step.failsWith, Step.call, h1]
  have hs2 : stepFails host namespace_name class_name method_name Step.CoInitializeSecurity
      = false := by
    simp [stepFails, Step.failsWith, Step.call, h2]
  constructor
  · have hmem : Call.CoCreateInstance
        ∈ (WinWmi.construct host namespace_name class_name method_name).calls.filter
            Call.isStep := by
      rw [hseq.1]
      simp only [plannedSteps, List.cons_append, List.nil_append, performedSteps, hs1, hs2]
      split_ifs <;> simp_all [Step.call]
    exact (List.mem_filter.1 hmem).1
  · rw [hseq.2]
    intro h
    exact expectedError_ne_code _ _ _ hs2 (Option.some.inj h)

/-- C1 at a concrete host: CoInitializeSecurity answers RPC_E_TOO_LATE, every
other call S_OK. -/
theorem C1_witness :
    Call.CoCreateInstance
        ∈ (WinWmi.construct (hostAnswering Call.CoInitializeSecurity RPC_E_TOO_LATE) "ROOT"
            (some "Win32_Process") (some "Create")).calls
      ∧ (WinWmi.construct (hostAnswering Call.CoInitializeSecurity RPC_E_TOO_LATE) "ROOT"
            (some "Win32_Process") (some "Create")).lastError
          ≠ some WmiError.kFailedCoInitializeSecurity :=
  (C1_constructor_steps_and_error (hostAnswering Call.CoInitializeSecurity RPC_E_TOO_LATE)
    "ROOT" (some "Win32_Process") (some "Create")).2.2 (by decide) (by decide)

/-- When no scheduled step fails, a lifetime uninitialises COM once and
releases the locator and the service once each. -/
theorem lifetime_balanced_of_no_failure (host : Host) (namespace_name : String)
    (class_name method_name : Option String)
    (h : ∀ s ∈ plannedSteps class_name method_name,
      stepFails host namespace_name class_name method_name s = false) :
    (lifetime host namespace_name class_name method_name).count Call.CoUninitialize = 1
      ∧ (lifetime host namespace_name class_name method_name).count
          (Call.Release Handle.locator) = 1
      ∧ (lifetime host namespace_name class_name method_name).count
          (Call.Release Handle.service) = 1 := by
  have h1 := h Step.CoInitializeEx (by simp [plannedSteps])
  have h2 := h Step.CoInitializeSecurity (by simp [plannedSteps])
  have h3 := h Step.CoCreateInstance (by simp [plannedSteps])
  have h4 := h Step.ConnectServer (by simp [plannedSteps])
  have h5 := h Step.CoSetProxyBlanket (by simp [plannedSteps])
  simp only [stepFails, Step.failsWith, Step.call] at h1 h2 h3 h4 h5
  by_cases hn : (nonEmptyName class_name && nonEmptyName method_name) = true
  · have h6 := h Step.GetObject (by simp [plannedSteps, hn])
    have h7 := h Step.GetMethod (by simp [plannedSteps, hn])
    have h8 := h Step.SpawnInstance (by simp [plannedSteps, hn])
    simp only [stepFails, Step.failsWith, Step.call] at h6 h7 h8
    simp [lifetime, WinWmi.construct, WinWmi.resolve, WinWmi.destruct, releaseIfSet,
      sysStringLen_bne_zero, h1, h2, h3, h4, h5, h6, h7, h8, hn, List.count_cons]
  · simp [lifetime, WinWmi.construct, WinWmi.resolve, WinWmi.destruct, releaseIfSet,
      sysStringLen_bne_zero, h1, h2, h3, h4, h5, hn, List.count_cons]

/-- When CoInitializeEx fails, the lifetime still calls CoUninitialize once;
when CoInitializeEx succeeds and a later step fails, it calls it twice. -/
theorem lifetime_uninitialize_of_failure (host : Host) (namespace_name : String)
    (class_name method_name : Option String) :
    (FAILED (host.hresult Call.CoInitializeEx) = true →
        (lifetime host namespace_name class_name method_name).count Call.CoUninitialize = 1)
      ∧ (FAILED (host.hresult Call.CoInitializeEx) = false →
        expectedError (stepFails host namespace_name class_name method_name)
          (plannedSteps class_name method_name) ≠ WmiError.kNone →
        (lifetime host namespace_name class_name method_name).count Call.CoUninitialize = 2) := by
  constructor
  · intro h1
    simp [lifetime, WinWmi.construct, WinWmi.destruct, releaseIfSet, h1, List.count_cons]
  · intro h1
    simp only [lifetime, WinWmi.construct, WinWmi.resolve, WinWmi.wmi_cleanup, plannedSteps,
      sysStringLen_bne_zero]
    by_cases h2 : (FAILED (host.hresult Call.CoInitializeSecurity)
        && host.hresult Call.CoInitializeSecurity != RPC_E_TOO_LATE) = true
    · simp [h1, h2, WinWmi.destruct, releaseIfSet, List.count_cons]
    by_cases h3 : FAILED (host.hresult Call.CoCreateInstance) = true
    · simp [h1, h2, h3, WinWmi.destruct, releaseIfSet, List.count_cons]
    by_cases h4 : FAILED (host.hresult (Call.ConnectServer Handle.locator namespace_name))
        = true
    · simp [h1, h2, h3, h4, WinWmi.destruct, releaseIfSet, List.count_cons]
    by_cases h5 : FAILED (host.hresult (Call.CoSetProxyBlanket Handle.service)) = true
    · simp [h1, h2, h3, h4, h5, WinWmi.destruct, releaseIfSet, List.count_cons]
    by_cases hn : (nonEmptyName class_name && nonEmptyName method_name) = true
    swap
    · intro hne
      exact absurd (by simp [expectedError, stepFails, Step.failsWith, Step.call, h1, h2, h3,
        h4, h5, hn]) hne
    by_cases h6 : FAILED (host.hresult (Call.GetObject Handle.service class_name)) = true
    · simp [h1, h2, h3, h4, h5, hn, h6, WinWmi.destruct, releaseIfSet, List.count_cons]
    by_cases h7 : FAILED (host.hresult (Call.GetMethod Handle.classObject method_name)) = true
    · simp [h1, h2, h3, h4, h5, hn, h6, h7, WinWmi.destruct, releaseIfSet, List.count_cons]
    by_cases h8 : FAILED (host.hresult (Call.SpawnInstance Handle.methodParams)) = true
    · simp [h1, h2, h3, h4, h5, hn, h6, h7, h8, WinWmi.destruct, releaseIfSet,
        List.count_cons]
    · intro hne
      exact absurd (by simp [expectedError, stepFails, Step.failsWith, Step.call, h1, h2, h3,
        h4, h5, hn, h6, h7, h8]) hne

/-- C8 (the code departs from the claim): three lifetimes in which the calls
are not balanced.  When CoInitializeEx fails the destructor still calls
CoUninitialize; when ConnectServer fails the locator is released and COM
uninitialised by the constructor and again by the destructor; when
CoSetProxyBlanket fails the same happens to the service as well. -/
theorem C8_lifetime_unbalanced_after_failure :
    lifetime (hostAnswering Call.CoInitializeEx E_FAIL) "ROOT"
        (some "Win32_Process") (some "Create")
      = [Call.CoInitializeEx, Call.CoUninitialize]
    ∧ lifetime (hostAnswering (Call.ConnectServer Handle.locator "ROOT") E_FAIL) "ROOT"
        (some "Win32_Process") (some "Create")
      = [Call.CoInitializeEx, Call.CoInitializeSecurity, Call.CoCreateInstance,
          Call.ConnectServer Handle.locator "ROOT",
          Call.Release Handle.locator, Call.CoUninitialize,
          Call.Release Handle.locator, Call.CoUninitialize]
    ∧ lifetime (hostAnswering (Call.CoSetProxyBlanket Handle.service) E_FAIL) "ROOT"
        (some "Win32_Process") (some "Create")
      = [Call.CoInitializeEx, Call.CoInitializeSecurity, Call.CoCreateInstance,
          Call.ConnectServer Handle.locator "ROOT", Call.CoSetProxyBlanket Handle.service,
          Call.Release Handle.service, Call.Release Handle.locator, Call.CoUninitialize,
          Call.Release Handle.locator, Call.Release Handle.service, Call.CoUninitialize] := by
  refine ⟨?_, ?_, ?_⟩ <;> decide

/-- C2 (the code departs from the claim): on the object a successful
constructor leaves for class `Win32_Process`, the string `get` and `get_all`
accept a supplied class name and issue the query, while `get<T>`, the string
`set` and `set<T>` reject the same argument with kEmptyClassName and make no
call; with the argument omitted it is the other way round. -/
theorem C2_class_name_check_inverted :
    (sampleWmi.get hostOk "Name" (some "Win32_Process")).calls
        = [Call.ExecQuery Handle.service "SELECT * FROM Win32_Process"]
      ∧ (sampleWmi.get hostOk "Name" (some "Win32_Process")).lastError = some WmiError.kNone
      ∧ (sampleWmi.get_all hostOk "Name" (some "Win32_Process")).calls
        = [Call.ExecQuery Handle.service "SELECT * FROM Win32_Process"]
      ∧ (sampleWmi.get_all hostOk "Name" (some "Win32_Process")).lastError
        = some WmiError.kNone
      ∧ (sampleWmi.get_T hostOk toUInt "Name" WmiType.kUint32 none
          (some "Win32_Process")).calls = []
      ∧ (sampleWmi.get_T hostOk toUInt "Name" WmiType.kUint32 none
          (some "Win32_Process")).value
        = some (false, none)
      ∧ (sampleWmi.get_T hostOk toUInt "Name" WmiType.kUint32 none
          (some "Win32_Process")).lastError
        = some WmiError.kEmptyClassName
      ∧ (sampleWmi.set hostOk "Name" "x" (some "Win32_Process")).calls = []
      ∧ (sampleWmi.set hostOk "Name" "x" (some "Win32_Process")).value = some false
      ∧ (sampleWmi.set hostOk "Name" "x" (some "Win32_Process")).lastError
        = some WmiError.kEmptyClassName
      ∧ (sampleWmi.set_T hostOk "Name" WmiType.kUint32 7 (some "Win32_Process")).calls = []
      ∧ (sampleWmi.set_T hostOk "Name" WmiType.kUint32 7 (some "Win32_Process")).value
        = some false
      ∧ (sampleWmi.set_T hostOk "Name" WmiType.kUint32 7 (some "Win32_Process")).lastError
        = some WmiError.kEmptyClassName
      ∧ (sampleWmi.get hostOk "Name" none).lastError = some WmiError.kEmptyClassName
      ∧ (sampleWmi.set hostOk "Name" "x" none).value = some true
      ∧ (sampleWmi.set hostOk "Name" "x" none).lastError = some WmiError.kNone := by
  refine ⟨?_, ?_, ?_, ?_, ?_, ?_, ?_, ?_, ?_, ?_, ?_, ?_, ?_, ?_, ?_, ?_⟩ <;> decide

/-! ## The class-name check of the two string readers -/

/-- The check `is_class_name_valid` fails when the stored class name has
length zero. -/
theorem is_class_name_valid_of_len_zero (self : WinWmi) (class_name : Option String)
    (h : SysStringLen self.class_name_ = 0) : self.is_class_name_valid class_name = false := by
  simp [WinWmi.is_class_name_valid, h]

/-- A passed check means the argument was supplied. -/
theorem exists_of_is_class_name_valid (self : WinWmi) (class_name : Option String)
    (h : self.is_class_name_valid class_name = true) : ∃ c, class_name = some c := by
  cases class_name with
  | none => simp [WinWmi.is_class_name_valid] at h
  | some c => exact ⟨c, rfl⟩

/-- The calls of `get_all` are the calls of its one `exec_query`, when the
check passes. -/
theorem get_all_calls (self : WinWmi) (host : Host) (variable_name c : String)
    (h : self.is_class_name_valid (some c) = true) :
    (self.get_all host variable_name (some c)).calls
      = (self.exec_query host ("SELECT * FROM " ++ c)).calls := by
  simp only [WinWmi.get_all, h, WinWmi.create_query, WinWmi.exec_query]
  cases self.wbem_service_ with
  | none => rfl
  | some svc =>
    simp only [Bool.not_true, Bool.false_eq_true, if_false]
    split
    · rfl
    · cases host.enumerator ("SELECT * FROM " ++ c) <;> rfl

/-- The calls of the string `get` are the calls of its one `exec_query`, when
the check passes. -/
theorem get_calls (self : WinWmi) (host : Host) (variable_name c : String)
    (h : self.is_class_name_valid (some c) = true) :
    (self.get host variable_name (some c)).calls
      = (self.exec_query host ("SELECT * FROM " ++ c)).calls := by
  simp only [WinWmi.get, h, WinWmi.create_query, WinWmi.exec_query]
  cases self.wbem_service_ with
  | none => rfl
  | some svc =>
    simp only [Bool.not_true, Bool.false_eq_true, if_false]
    split
    · rfl
    · cases host.enumerator ("SELECT * FROM " ++ c) <;> rfl

/-- The calls `exec_query` makes: none, or the one `ExecQuery` carrying the
query text. -/
theorem mem_exec_query_calls (self : WinWmi) (host : Host) (query : String) (x : Call)
    (h : x ∈ (self.exec_query host query).calls) :
    ∃ svc, self.wbem_service_ = some svc ∧ x = Call.ExecQuery svc query := by
  unfold WinWmi.exec_query at h
  cases hs : self.wbem_service_ with
  | none => simp [hs] at h
  | some svc =>
    simp [hs] at h
    exact ⟨svc, rfl, h⟩

/-- C9: for every object and host, `get_all` and the string `get` called with
the class_name argument omitted return nullopt, record kEmptyClassName and
make no call; they do the same for a supplied argument when the stored class
name has length zero (none given to the constructor, or an empty one); a run
of either that is not this rejection had a supplied argument, and
create_query gives "SELECT * FROM " followed by it; and every ExecQuery either
of them issues carries that text, so the fall-back of create_query to the
stored class name is not taken by them. -/
theorem C9_string_readers_require_argument (self : WinWmi) (host : Host)
    (variable_name : String) (class_name : Option String) :
    self.get_all host variable_name none
        = ⟨[], some (none, { self with last_error_ := WmiError.kEmptyClassName })⟩
      ∧ self.get host variable_name none
        = ⟨[], some (none, { self with last_error_ := WmiError.kEmptyClassName })⟩
      ∧ (SysStringLen self.class_name_ = 0 →
          self.get_all host variable_name class_name
            = ⟨[], some (none, { self with last_error_ := WmiError.kEmptyClassName })⟩
          ∧ self.get host variable_name class_name
            = ⟨[], some (none, { self with last_error_ := WmiError.kEmptyClassName })⟩)
      ∧ (self.get_all host variable_name class_name
            ≠ ⟨[], some (none, { self with last_error_ := WmiError.kEmptyClassName })⟩
          ∨ self.get host variable_name class_name
            ≠ ⟨[], some (none, { self with last_error_ := WmiError.kEmptyClassName })⟩ →
          ∃ c, class_name = some c
            ∧ self.create_query class_name = some ("SELECT * FROM " ++ c))
      ∧ (∀ svc query,
          Call.ExecQuery svc query ∈ (self.get_all host variable_name class_name).calls
            ∨ Call.ExecQuery svc query ∈ (self.get host variable_name class_name).calls →
          ∃ c, class_name = some c ∧ query = "SELECT * FROM " ++ c) := by
  refine ⟨rfl, rfl, ?_, ?_, ?_⟩
  · intro h
    have hv := is_class_name_valid_of_len_zero self class_name h
    simp [WinWmi.get_all, WinWmi.get, hv]
  · intro h
    cases hv : self.is_class_name_valid class_name with
    | false =>
      simp [WinWmi.get_all, WinWmi.get, hv] at h
    | true =>
      obtain ⟨c, rfl⟩ := exists_of_is_class_name_valid self class_name hv
      exact ⟨c, rfl, rfl⟩
  · intro svc query h
    cases hv : self.is_class_name_valid class_name with
    | false =>
      simp [WinWmi.get_all, WinWmi.get, hv] at h
    | true =>
      obtain ⟨c, rfl⟩ := exists_of_is_class_name_valid self class_name hv
      refine ⟨c, rfl, ?_⟩
      rw [get_all_calls self host variable_name c hv, get_calls self host variable_name c hv]
        at h
      have hm : Call.ExecQuery svc query
          ∈ (self.exec_query host ("SELECT * FROM " ++ c)).calls := by
        cases h with
        | inl h => exact h
        | inr h => exact h
      obtain ⟨svc2, _, he⟩ := mem_exec_query_calls self host _ _ hm
      injection he with _ hq

/-- C9 at a concrete input: an object built without a class name, asked with
a supplied argument. -/
theorem C9_witness :
    ({ wbem_service_ := some Handle.service } : WinWmi).get_all hostOk "Name"
          (some "Win32_Process")
        = ⟨[], some (none, { wbem_service_ := some Handle.service,
                             last_error_ := WmiError.kEmptyClassName })⟩
      ∧ ({ wbem_service_ := some Handle.service } : WinWmi).get hostOk "Name"
          (some "Win32_Process")
        = ⟨[], some (none, { wbem_service_ := some Handle.service,
                             last_error_ := WmiError.kEmptyClassName })⟩ :=
  (C9_string_readers_require_argument { wbem_service_ := some Handle.service } hostOk "Name"
    (some "Win32_Process")).2.2.1 rfl

/-! ## The query text -/

/-- The calls of the typed `get<T>` are the calls of its one `exec_query`,
when the call is not rejected and the query text could be built. -/
theorem get_T_calls (self : WinWmi) (host : Host) (toT : Int → Int)
    (variable_name : String) (type : WmiType)
    (value : Option Int) (class_name : Option String) (query : String)
    (h : self.is_class_name_valid class_name = false)
    (hq : self.create_query class_name = some query) :
    (self.get_T host toT variable_name type value class_name).calls
      = (self.exec_query host query).calls := by
  simp only [WinWmi.get_T, h, hq, WinWmi.exec_query]
  cases self.wbem_service_ with
  | none => rfl
  | some svc =>
    simp only [Bool.false_eq_true, if_false]
    split
    · rfl
    · cases host.enumerator query <;> rfl

/-- C3: create_query returns exactly "SELECT * FROM " followed by the
class_name argument when one is supplied, and followed by the stored class
name, which is the one given to the constructor, when the argument is
omitted; and whenever get_all, get or get<T> get past their class-name check
on an object with a service pointer, the one call they make is ExecQuery with
exactly the text create_query returns. -/
theorem C3_create_query_text (self : WinWmi) (host : Host) (toT : Int → Int)
    (variable_name : String) (type : WmiType) (value : Option Int)
    (class_name : Option String) (c : String)
    (svc : Handle) (namespace_name : String) (method_name : Option String) :
    self.create_query (some c) = some ("SELECT * FROM " ++ c)
      ∧ ({ self with class_name_ := some c }).create_query none = some ("SELECT * FROM " ++ c)
      ∧ ((WinWmi.construct host namespace_name (some c) method_name).self.bind
            (fun w => w.create_query none)) = some ("SELECT * FROM " ++ c)
      ∧ (self.wbem_service_ = some svc → self.is_class_name_valid class_name = true →
          ∃ query, self.create_query class_name = some query
            ∧ (self.get_all host variable_name class_name).calls = [Call.ExecQuery svc query]
            ∧ (self.get host variable_name class_name).calls = [Call.ExecQuery svc query])
      ∧ (self.wbem_service_ = some svc → self.is_class_name_valid class_name = false →
          ∀ query, self.create_query class_name = some query →
            (self.get_T host toT variable_name type value class_name).calls
              = [Call.ExecQuery svc query]) := by
  refine ⟨rfl, rfl, ?_, ?_, ?_⟩
  · obtain ⟨w, hw, hc, _⟩ := construct_stores_names host namespace_name (some c) method_name
    rw [hw]
    simp [WinWmi.create_query, hc]
  · intro hs hv
    obtain ⟨k, rfl⟩ := exists_of_is_class_name_valid self class_name hv
    refine ⟨"SELECT * FROM " ++ k, rfl, ?_, ?_⟩
    · rw [get_all_calls self host variable_name k hv]
      simp [WinWmi.exec_query, hs]
    · rw [get_calls self host variable_name k hv]
      simp [WinWmi.exec_query, hs]
  · intro hs hv query hq
    rw [get_T_calls self host toT variable_name type value class_name query hv hq]
    simp [WinWmi.exec_query, hs]

/-- C3 at concrete inputs: the sample object asked for `Win32_Service` by the
string readers, and asked by `get<T>` with the argument omitted. -/
theorem C3_witness :
    (∃ query, sampleWmi.create_query (some "Win32_Service") = some query
      ∧ (sampleWmi.get_all hostOk "Name" (some "Win32_Service")).calls
        = [Call.ExecQuery Handle.service query]
      ∧ (sampleWmi.get hostOk "Name" (some "Win32_Service")).calls
        = [Call.ExecQuery Handle.service query])
    ∧ (sampleWmi.get_T hostOk toUInt "Name" WmiType.kBool none none).calls
        = [Call.ExecQuery Handle.service "SELECT * FROM Win32_Process"] :=
  ⟨(C3_create_query_text sampleWmi hostOk toUInt "Name" WmiType.kBool none
      (some "Win32_Service")
      "Win32_Service" Handle.service "ROOT" none).2.2.2.1 rfl rfl,
   (C3_create_query_text sampleWmi hostOk toUInt "Name" WmiType.kBool none none
      "Win32_Service" Handle.service "ROOT" none).2.2.2.2 rfl rfl _ rfl⟩

/-! ## The string readers -/

/-- A string without NUL is copied whole. -/
theorem wstringOfBstr_of_nulFree (s : String) (h : ∀ c ∈ s.data, c ≠ NUL) :
    wstringOfBstr (some s) = s := by
  have ht : s.data.takeWhile (fun c => c != NUL) = s.data :=
    List.takeWhile_eq_self_iff.2 (fun c hc => bne_iff_ne.2 (h c hc))
  simp [wstringOfBstr, ht]

/-- The loop of `get_all` appends the amended result to the vector. -/
theorem get_all_loop_eq (variable_name : String) (objs : IEnumWbemClassObject)
    (objects : List String) :
    get_all_loop variable_name objs objects = objects ++ expectedAll variable_name objs := by
  induction objs generalizing objects with
  | nil => simp [get_all_loop, expectedAll, readableObjects]
  | cons o rest ih =>
    unfold get_all_loop
    by_cases hhr : (o variable_name).hr = S_OK
    · have hb : ((o variable_name).hr == S_OK) = true := beq_iff_eq.2 hhr
      have hne : ((o variable_name).hr != S_OK) = false := by simp [hhr]
      have hre : readableObjects variable_name (o :: rest)
          = o :: readableObjects variable_name rest := by
        simp [readableObjects, List.takeWhile, hb]
      by_cases hlen : (SysStringLen (o variable_name).bstrVal != 0) = true
      · simp only [hne, Bool.false_eq_true, if_false, hlen, if_true, ih, expectedAll, hre,
          List.filter_cons_of_pos, List.map_cons, copiedString, List.append_assoc,
          List.singleton_append]
      · have hlen2 : (SysStringLen (o variable_name).bstrVal != 0) = false := by
          simpa using hlen
        simp only [hne, Bool.false_eq_true, if_false, hlen2, ih, expectedAll, hre,
          List.filter_cons]
    · have hb : ((o variable_name).hr == S_OK) = false := beq_eq_false_iff_ne.2 hhr
      have hne : ((o variable_name).hr != S_OK) = true := bne_iff_ne.2 hhr
      simp [hne, hb, expectedAll, readableObjects, List.takeWhile]

/-- On a list of objects whose property strings contain no NUL, the amended
and the stated selection of strings agree. -/
theorem copied_eq_claimed (variable_name : String) (l : List IWbemClassObject)
    (h : ∀ o ∈ l, ∀ c ∈ (propertyString variable_name o).data, c ≠ NUL) :
    (l.filter (fun o => SysStringLen (o variable_name).bstrVal != 0)).map
        (copiedString variable_name)
      = (l.map (propertyString variable_name)).filter (fun s => s != "") := by
  induction l with
  | nil => rfl
  | cons o rest ih =>
    have ih2 := ih (fun x hx => h x (List.mem_cons_of_mem o hx))
    have ho := h o (List.mem_cons_self o rest)
    cases hbs : (o variable_name).bstrVal with
    | none =>
      have hp : propertyString variable_name o = "" := by simp [propertyString, hbs]
      have hl : (SysStringLen (o variable_name).bstrVal != 0) = false := by
        rw [hbs]; rfl
      simp only [List.filter_cons, hl, Bool.false_eq_true, if_false, List.map_cons, hp, ih2,
        bne_self_eq_false]
    | some s =>
      have hp : propertyString variable_name o = s := by simp [propertyString, hbs]
      rw [hp] at ho
      have hc : copiedString variable_name o = s := by
        simp only [copiedString, hbs]
        exact wstringOfBstr_of_nulFree s ho
      have hl : (SysStringLen (o variable_name).bstrVal != 0) = (s != "") := by
        rw [hbs, sysStringLen_bne_zero]; rfl
      cases he : (s != "") with
      | true =>
        simp only [List.filter_cons, hl, he, if_true, List.map_cons, hp, hc, ih2]
      | false =>
        simp only [List.filter_cons, hl, he, Bool.false_eq_true, if_false, List.map_cons, hp,
          ih2]

/-- For an enumeration whose property strings contain no NUL, the amended
result of `get_all` is the result the specification states. -/
theorem expectedAll_eq_claimedAll (variable_name : String) (objs : IEnumWbemClassObject)
    (h : nulFree variable_name objs) :
    expectedAll variable_name objs = claimedAll variable_name objs := by
  unfold expectedAll claimedAll
  exact copied_eq_claimed variable_name _
    (fun o ho => h o ((List.takeWhile_sublist _).subset ho))

/-- The loop of the string `get` ends with the value the last readable object
sets, or with the incoming value when no object is readable. -/
theorem get_loop_eq (variable_name : String) (objs : IEnumWbemClassObject)
    (value : Option String) :
    get_loop variable_name objs value
      = match (readableObjects variable_name objs).getLast? with
        | none => value
        | some o => if SysStringLen (o variable_name).bstrVal = 0 then none
            else some (copiedString variable_name o) := by
  induction objs generalizing value with
  | nil => simp [get_loop, readableObjects]
  | cons o rest ih =>
    unfold get_loop
    by_cases hhr : (o variable_name).hr = S_OK
    · have hb : ((o variable_name).hr == S_OK) = true := beq_iff_eq.2 hhr
      have hne : ((o variable_name).hr != S_OK) = false := by simp [hhr]
      have hre : readableObjects variable_name (o :: rest)
          = o :: readableObjects variable_name rest := by
        simp [readableObjects, List.takeWhile, hb]
      rw [hre]
      cases hl : (readableObjects variable_name rest).getLast? with
      | none =>
        have hnil : readableObjects variable_name rest = [] := List.getLast?_eq_none_iff.1 hl
        by_cases he : SysStringLen (o variable_name).bstrVal = 0
        · simp [hne, he, ih, hl, hnil]
        · simp [hne, he, ih, hl, hnil, copiedString]
      | some x =>
        have hcons : (o :: readableObjects variable_name rest).getLast? = some x := by
          rw [List.getLast?_cons, hl]; rfl
        by_cases he : SysStringLen (o variable_name).bstrVal = 0
        · simp [hne, he, ih, hl, hcons]
        · simp [hne, he, ih, hl, hcons]
    · have hb : ((o variable_name).hr == S_OK) = false := beq_eq_false_iff_ne.2 hhr
      have hne : ((o variable_name).hr != S_OK) = true := bne_iff_ne.2 hhr
      simp [hne, readableObjects, List.takeWhile, hb]

/-- For an enumeration whose property strings contain no NUL, the amended
result of the string `get` is the result the specification states. -/
theorem expectedLast_eq_claimedLast (variable_name : String) (objs : IEnumWbemClassObject)
    (h : nulFree variable_name objs) :
    expectedLast variable_name objs = claimedLast variable_name objs := by
  unfold expectedLast claimedLast
  cases hl : (readableObjects variable_name objs).getLast? with
  | none => rfl
  | some o =>
    have hmem : o ∈ objs :=
      (List.takeWhile_sublist _).subset (List.mem_of_getLast?_eq_some hl)
    have ho := h o hmem
    cases hbs : (o variable_name).bstrVal with
    | none => simp [propertyString, hbs, SysStringLen]
    | some s =>
      have hp : propertyString variable_name o = s := by simp [propertyString, hbs]
      rw [hp] at ho
      have hc : copiedString variable_name o = s := by
        simp only [copiedString, hbs]
        exact wstringOfBstr_of_nulFree s ho
      by_cases he : s = ""
      · have hz : s.length = 0 := (string_length_eq_zero s).2 he
        simp [hp, hc, SysStringLen, hbs, he, hz]
      · have hz : ¬ s.length = 0 := fun e => he ((string_length_eq_zero s).1 e)
        simp [hp, hc, SysStringLen, hbs, he, hz]

/-- C4 (amended): when the class-name check passes on an object with a
service pointer: if ExecQuery fails get_all returns nullopt; otherwise, for
every finite result enumeration, get_all returns the vector that holds, in
enumeration order, for each object that precedes the first object whose Get
does not return S_OK and whose BSTR has a non-zero length, the characters of
that BSTR before its first NUL; objects whose BSTR is null or has length zero
contribute no element, and a null enumerator gives the empty vector.  When no
property string contains a NUL, this is exactly the vector of the non-empty
property strings. -/
theorem C4_get_all_amended (self : WinWmi) (host : Host) (variable_name : String)
    (class_name : Option String) (svc : Handle)
    (hv : self.is_class_name_valid class_name = true) (hs : self.wbem_service_ = some svc) :
    ∃ c, class_name = some c
      ∧ (FAILED (host.hresult (Call.ExecQuery svc ("SELECT * FROM " ++ c))) = true →
          (self.get_all host variable_name class_name).value = some none)
      ∧ (FAILED (host.hresult (Call.ExecQuery svc ("SELECT * FROM " ++ c))) = false →
          (∀ objs, host.enumerator ("SELECT * FROM " ++ c) = some objs →
            (self.get_all host variable_name class_name).value
                = some (some (expectedAll variable_name objs))
              ∧ (nulFree variable_name objs →
                (self.get_all host variable_name class_name).value
                  = some (some (claimedAll variable_name objs))))
          ∧ (host.enumerator ("SELECT * FROM " ++ c) = none →
            (self.get_all host variable_name class_name).value = some (some []))) := by
  obtain ⟨c, rfl⟩ := exists_of_is_class_name_valid self class_name hv
  refine ⟨c, rfl, ?_, ?_⟩
  · intro hf
    simp [WinWmi.get_all, hv, WinWmi.create_query, WinWmi.exec_query, hs, hf, Run.value]
  · intro hf
    constructor
    · intro objs he
      have hval : (self.get_all host variable_name (some c)).value
          = some (some (expectedAll variable_name objs)) := by
        simp [WinWmi.get_all, hv, WinWmi.create_query, WinWmi.exec_query, hs, hf, he,
          Run.value, get_all_loop_eq]
      refine ⟨hval, fun hn => ?_⟩
      rw [hval, expectedAll_eq_claimedAll variable_name objs hn]
    · intro he
      simp [WinWmi.get_all, hv, WinWmi.create_query, WinWmi.exec_query, hs, hf, he, Run.value]

/-- C4 at a concrete input: five objects, the second with an empty string, the
fourth failing its Get, so that the fifth is never read. -/
theorem C4_witness :
    (sampleWmi.get_all (hostEnumerating [objectWithString "a", objectWithString "",
        objectWithString "b", objectFailing, objectWithString "d"]) "Name"
          (some "Win32_Process")).value = some (some ["a", "b"]) := by
  obtain ⟨c, hc, _, h⟩ := C4_get_all_amended sampleWmi
    (hostEnumerating [objectWithString "a", objectWithString "", objectWithString "b",
      objectFailing, objectWithString "d"]) "Name" (some "Win32_Process") Handle.service rfl rfl
  cases hc
  exact ((h rfl).1 _ rfl).1

/-- C4 as stated fails: for an enumeration of one object whose BSTR has length
two and starts with NUL, the non-empty property string is that two-character
string, but get_all returns a vector holding the empty string.  And on the
object a constructor leaves when CoInitializeEx fails, get_all passes the
class-name check with no service to query: it makes no call and does not
return. -/
theorem C4_counterexample :
    claimedAll "Name" [objectWithString nulThenX] = [nulThenX]
      ∧ nulThenX ≠ ""
      ∧ (sampleWmi.get_all (hostEnumerating [objectWithString nulThenX]) "Name"
          (some "Win32_Process")).value = some (some [""])
      ∧ (WinWmi.construct (hostAnswering Call.CoInitializeEx E_FAIL) "ROOT"
          (some "Win32_Process") (some "Create")).self = some sampleNoService
      ∧ sampleNoService.is_class_name_valid (some "Win32_Process") = true
      ∧ (sampleNoService.get_all hostOk "Name" (some "Win32_Process")).calls = []
      ∧ (sampleNoService.get_all hostOk "Name" (some "Win32_Process")).value = none := by
  refine ⟨?_, ?_, ?_, ?_, ?_, ?_, ?_⟩ <;> decide

/-- C5 (amended): when the class-name check passes on an object with a
service pointer: if ExecQuery fails the string get returns nullopt; otherwise,
for every finite result enumeration, it looks at the last object that precedes
the first object whose Get does not return S_OK, and returns the characters of
that object's BSTR before its first NUL; it returns nullopt when that BSTR is
null or has length zero, when no object was read, and for a null enumerator.
When no property string contains a NUL, this is the property string of that
last object, or nullopt when it is empty. -/
theorem C5_get_amended (self : WinWmi) (host : Host) (variable_name : String)
    (class_name : Option String) (svc : Handle)
    (hv : self.is_class_name_valid class_name = true) (hs : self.wbem_service_ = some svc) :
    ∃ c, class_name = some c
      ∧ (FAILED (host.hresult (Call.ExecQuery svc ("SELECT * FROM " ++ c))) = true →
          (self.get host variable_name class_name).value = some none)
      ∧ (FAILED (host.hresult (Call.ExecQuery svc ("SELECT * FROM " ++ c))) = false →
          (∀ objs, host.enumerator ("SELECT * FROM " ++ c) = some objs →
            (self.get host variable_name class_name).value
                = some (expectedLast variable_name objs)
              ∧ (nulFree variable_name objs →
                (self.get host variable_name class_name).value
                  = some (claimedLast variable_name objs)))
          ∧ (host.enumerator ("SELECT * FROM " ++ c) = none →
            (self.get host variable_name class_name).value = some none)) := by
  obtain ⟨c, rfl⟩ := exists_of_is_class_name_valid self class_name hv
  refine ⟨c, rfl, ?_, ?_⟩
  · intro hf
    simp [WinWmi.get, hv, WinWmi.create_query, WinWmi.exec_query, hs, hf, Run.value]
  · intro hf
    constructor
    · intro objs he
      have hval : (self.get host variable_name (some c)).value
          = some (expectedLast variable_name objs) := by
        simp only [WinWmi.get, hv, WinWmi.create_query, WinWmi.exec_query, hs, hf, he,
          Run.value, get_loop_eq, expectedLast]
        rfl
      refine ⟨hval, fun hn => ?_⟩
      rw [hval, expectedLast_eq_claimedLast variable_name objs hn]
    · intro he
      simp [WinWmi.get, hv, WinWmi.create_query, WinWmi.exec_query, hs, hf, he, Run.value]

/-- C5 at concrete inputs: the last readable object decides; an empty last
string, and an enumeration with no readable object, give nullopt. -/
theorem C5_witness :
    (sampleWmi.get (hostEnumerating [objectWithString "a", objectWithString "",
        objectWithString "b", objectFailing, objectWithString "d"]) "Name"
          (some "Win32_Process")).value = some (some "b")
      ∧ (sampleWmi.get (hostEnumerating [objectWithString "a", objectWithString ""]) "Name"
          (some "Win32_Process")).value = some none
      ∧ (sampleWmi.get (hostEnumerating [objectFailing, objectWithString "d"]) "Name"
          (some "Win32_Process")).value = some none := by
  refine ⟨?_, ?_, ?_⟩
  · obtain ⟨c, hc, _, h⟩ := C5_get_amended sampleWmi
      (hostEnumerating [objectWithString "a", objectWithString "", objectWithString "b",
        objectFailing, objectWithString "d"]) "Name" (some "Win32_Process") Handle.service
        rfl rfl
    cases hc
    exact ((h rfl).1 _ rfl).1
  · obtain ⟨c, hc, _, h⟩ := C5_get_amended sampleWmi
      (hostEnumerating [objectWithString "a", objectWithString ""]) "Name"
        (some "Win32_Process") Handle.service rfl rfl
    cases hc
    exact ((h rfl).1 _ rfl).1
  · obtain ⟨c, hc, _, h⟩ := C5_get_amended sampleWmi
      (hostEnumerating [objectFailing, objectWithString "d"]) "Name"
        (some "Win32_Process") Handle.service rfl rfl
    cases hc
    exact ((h rfl).1 _ rfl).1

/-- C5 as stated fails: for an enumeration of one object whose BSTR has length
two and starts with NUL, the property string of the last object is that
two-character string, but the string get returns an optional that holds the
empty string: neither the property string nor nullopt.  And on the object a
constructor leaves when CoInitializeEx fails, the string get passes the
class-name check with no service to query: it makes no call and does not
return. -/
theorem C5_counterexample :
    claimedLast "Name" [objectWithString nulThenX] = some nulThenX
      ∧ nulThenX ≠ ""
      ∧ (sampleWmi.get (hostEnumerating [objectWithString nulThenX]) "Name"
          (some "Win32_Process")).value = some (some "")
      ∧ (WinWmi.construct (hostAnswering Call.CoInitializeEx E_FAIL) "ROOT"
          (some "Win32_Process") (some "Create")).self = some sampleNoService
      ∧ sampleNoService.is_class_name_valid (some "Win32_Process") = true
      ∧ (sampleNoService.get hostOk "Name" (some "Win32_Process")).calls = []
      ∧ (sampleNoService.get hostOk "Name" (some "Win32_Process")).value = none := by
  refine ⟨?_, ?_, ?_, ?_, ?_, ?_, ?_⟩ <;> decide

/-! ## Method invocation -/

/-- The calls of the common tail start with the one `Put`, and contain no
other `Put`. -/
theorem put_and_exec_calls (self : WinWmi) (host : Host) (variable_name : String)
    (class_name : Option String) (var_cmd : VARIANT) (inst : Handle)
    (hi : self.class_instance_ = some inst) :
    (self.put_and_exec host variable_name class_name var_cmd).calls.head?
        = some (Call.Put inst variable_name var_cmd)
      ∧ ∀ obj name v, Call.Put obj name v
            ∈ (self.put_and_exec host variable_name class_name var_cmd).calls →
          Call.Put obj name v = Call.Put inst variable_name var_cmd := by
  by_cases h1 : FAILED (host.hresult (Call.Put inst variable_name var_cmd)) = true
  · simp [WinWmi.put_and_exec, hi, h1]
  · cases hs : self.wbem_service_ with
    | none => simp [WinWmi.put_and_exec, hi, hs, h1]
    | some svc =>
      by_cases h2 : FAILED (host.hresult (Call.ExecMethod svc (self.exec_class class_name)
          self.method_name_ (some inst))) = true
      · simp [WinWmi.put_and_exec, hi, hs, h1, h2]
      · simp [WinWmi.put_and_exec, hi, hs, h1, h2]

/-- Past the class-name check, the string `set`, and the typed `set<T>` with a
numeric type, are the common tail run on the variant they build. -/
theorem set_is_put_and_exec (self : WinWmi) (host : Host) (variable_name : String)
    (value : Int) (text : String) (type : WmiType) (class_name : Option String)
    (hv : self.is_class_name_valid class_name = false) (ht : type ≠ WmiType.kBstr)
    (r : Run Bool)
    (hr : r = self.set host variable_name text class_name
      ∨ r = self.set_T host variable_name type value class_name) :
    ∃ var_cmd, r = self.put_and_exec host variable_name class_name var_cmd := by
  cases hr with
  | inl h =>
    exact ⟨⟨VARTYPE.VT_BSTR, VariantData.bstrVal text false⟩,
      by rw [h]; simp [WinWmi.set, hv]⟩
  | inr h =>
    cases type with
    | kBool =>
      exact ⟨⟨VARTYPE.VT_BOOL, VariantData.boolVal (toVariantBool value)⟩,
        by rw [h]; simp [WinWmi.set_T, hv]⟩
    | kBstr => exact absurd rfl ht
    | kUint8 =>
      exact ⟨⟨VARTYPE.VT_UI1, VariantData.uintVal (toUInt value)⟩,
        by rw [h]; simp [WinWmi.set_T, hv]⟩
    | kUint32 =>
      exact ⟨⟨VARTYPE.VT_UI4, VariantData.uintVal (toUInt value)⟩,
        by rw [h]; simp [WinWmi.set_T, hv]⟩

/-- C6 (amended): for every typed set<T> call that gets past the class-name
check on an object that holds a parameter instance: with type kBool, kUint8
or kUint32 the first call is Put on that instance, no other Put is made, the
variant is tagged VT_BOOL, VT_UI1 or VT_UI4, and the value a reader takes
through that tag is the caller's value reduced to 16-bit signed, 8-bit
unsigned or 32-bit unsigned respectively, which is the caller's value itself
whenever it lies in that range; with type kBstr the call returns false,
records kWrongDataType and makes no call.  The string set hands Put a variant
tagged VT_BSTR. -/
theorem C6_set_variant_amended (self : WinWmi) (host : Host) (variable_name : String)
    (value : Int) (text : String) (class_name : Option String) (inst : Handle)
    (hv : self.is_class_name_valid class_name = false)
    (hi : self.class_instance_ = some inst) :
    ((self.set_T host variable_name WmiType.kBool value class_name).calls.head?
          = some (Call.Put inst variable_name
              ⟨VARTYPE.VT_BOOL, VariantData.boolVal (toVariantBool value)⟩)
        ∧ (∀ obj name v, Call.Put obj name v
              ∈ (self.set_T host variable_name WmiType.kBool value class_name).calls →
            Call.Put obj name v = Call.Put inst variable_name
              ⟨VARTYPE.VT_BOOL, VariantData.boolVal (toVariantBool value)⟩)
        ∧ (⟨VARTYPE.VT_BOOL, VariantData.boolVal (toVariantBool value)⟩ : VARIANT).taggedInt
          = some (toVariantBool value)
        ∧ (-2 ^ 15 ≤ value ∧ value < 2 ^ 15 → toVariantBool value = value))
      ∧ ((self.set_T host variable_name WmiType.kUint8 value class_name).calls.head?
          = some (Call.Put inst variable_name
              ⟨VARTYPE.VT_UI1, VariantData.uintVal (toUInt value)⟩)
        ∧ (∀ obj name v, Call.Put obj name v
              ∈ (self.set_T host variable_name WmiType.kUint8 value class_name).calls →
            Call.Put obj name v = Call.Put inst variable_name
              ⟨VARTYPE.VT_UI1, VariantData.uintVal (toUInt value)⟩)
        ∧ (⟨VARTYPE.VT_UI1, VariantData.uintVal (toUInt value)⟩ : VARIANT).taggedInt
          = some (value % 2 ^ 8)
        ∧ (0 ≤ value ∧ value < 2 ^ 8 → value % 2 ^ 8 = value))
      ∧ ((self.set_T host variable_name WmiType.kUint32 value class_name).calls.head?
          = some (Call.Put inst variable_name
              ⟨VARTYPE.VT_UI4, VariantData.uintVal (toUInt value)⟩)
        ∧ (∀ obj name v, Call.Put obj name v
              ∈ (self.set_T host variable_name WmiType.kUint32 value class_name).calls →
            Call.Put obj name v = Call.Put inst variable_name
              ⟨VARTYPE.VT_UI4, VariantData.uintVal (toUInt value)⟩)
        ∧ (⟨VARTYPE.VT_UI4, VariantData.uintVal (toUInt value)⟩ : VARIANT).taggedInt
          = some (value % 2 ^ 32)
        ∧ (0 ≤ value ∧ value < 2 ^ 32 → value % 2 ^ 32 = value))
      ∧ (self.set_T host variable_name WmiType.kBstr value class_name
          = ⟨[], some (false, { self with last_error_ := WmiError.kWrongDataType })⟩)
      ∧ (∃ data,
          (self.set host variable_name text class_name).calls.head?
            = some (Call.Put inst variable_name ⟨VARTYPE.VT_BSTR, data⟩)
          ∧ ∀ obj name v, Call.Put obj name v
                ∈ (self.set host variable_name text class_name).calls →
              Call.Put obj name v = Call.Put inst variable_name ⟨VARTYPE.VT_BSTR, data⟩) := by
  refine ⟨⟨?_, ?_, ?_, ?_⟩, ⟨?_, ?_, ?_, ?_⟩, ⟨?_, ?_, ?_, ?_⟩, ?_, ?_⟩
  · simpa [WinWmi.set_T, hv] using (put_and_exec_calls self host variable_name class_name
      ⟨VARTYPE.VT_BOOL, VariantData.boolVal (toVariantBool value)⟩ inst hi).1
  · simpa [WinWmi.set_T, hv] using (put_and_exec_calls self host variable_name class_name
      ⟨VARTYPE.VT_BOOL, VariantData.boolVal (toVariantBool value)⟩ inst hi).2
  · simp only [VARIANT.taggedInt, VariantData.bits, Option.map_some', Option.some.injEq]
    unfold toVariantBool
    omega
  · intro h
    unfold toVariantBool
    omega
  · simpa [WinWmi.set_T, hv] using (put_and_exec_calls self host variable_name class_name
      ⟨VARTYPE.VT_UI1, VariantData.uintVal (toUInt value)⟩ inst hi).1
  · simpa [WinWmi.set_T, hv] using (put_and_exec_calls self host variable_name class_name
      ⟨VARTYPE.VT_UI1, VariantData.uintVal (toUInt value)⟩ inst hi).2
  · simp only [VARIANT.taggedInt, VariantData.bits, Option.map_some', Option.some.injEq]
    unfold toUInt
    omega
  · intro h
    omega
  · simpa [WinWmi.set_T, hv] using (put_and_exec_calls self host variable_name class_name
      ⟨VARTYPE.VT_UI4, VariantData.uintVal (toUInt value)⟩ inst hi).1
  · simpa [WinWmi.set_T, hv] using (put_and_exec_calls self host variable_name class_name
      ⟨VARTYPE.VT_UI4, VariantData.uintVal (toUInt value)⟩ inst hi).2
  · simp only [VARIANT.taggedInt, VariantData.bits, Option.map_some', Option.some.injEq]
    unfold toUInt
    omega
  · intro h
    omega
  · simp [WinWmi.set_T, hv]
  · refine ⟨VariantData.bstrVal text false, ?_⟩
    simpa [WinWmi.set, hv] using put_and_exec_calls self host variable_name class_name
      ⟨VARTYPE.VT_BSTR, VariantData.bstrVal text false⟩ inst hi

/-- C6 at a concrete input: the sample object, argument omitted, value 1. -/
theorem C6_witness :
    (sampleWmi.set_T hostOk "Brightness" WmiType.kUint8 1 none).calls.head?
        = some (Call.Put Handle.paramInstance "Brightness"
            ⟨VARTYPE.VT_UI1, VariantData.uintVal 1⟩)
      ∧ (sampleWmi.set_T hostOk "Brightness" WmiType.kBool 1 none).calls.head?
        = some (Call.Put Handle.paramInstance "Brightness"
            ⟨VARTYPE.VT_BOOL, VariantData.boolVal 1⟩)
      ∧ sampleWmi.set_T hostOk "Brightness" WmiType.kBstr 1 none
        = ⟨[], some (false, { sampleWmi with last_error_ := WmiError.kWrongDataType })⟩ :=
  ⟨(C6_set_variant_amended sampleWmi hostOk "Brightness" 1 "x" none Handle.paramInstance
      rfl rfl).2.1.1,
   (C6_set_variant_amended sampleWmi hostOk "Brightness" 1 "x" none Handle.paramInstance
      rfl rfl).1.1,
   (C6_set_variant_amended sampleWmi hostOk "Brightness" 1 "x" none Handle.paramInstance
      rfl rfl).2.2.2.1⟩

/-- C6 as stated fails: on the sample object, set<T> with type kBool and the
caller's value 65536 hands Put a VT_BOOL variant whose boolVal is 0, and with
type kUint8 and the caller's value 300 a VT_UI1 variant that reads as 44; the
string set hands Put a VT_BSTR variant whose BSTR is no longer allocated.  And
on the object a constructor leaves when no class name is given, set<T> with a
supplied class name passes the class-name check and finds no parameter
instance: it makes no Put and does not return. -/
theorem C6_counterexample :
    (sampleWmi.set_T hostOk "Brightness" WmiType.kBool 65536 none).calls.head?
        = some (Call.Put Handle.paramInstance "Brightness"
            ⟨VARTYPE.VT_BOOL, VariantData.boolVal 0⟩)
      ∧ (⟨VARTYPE.VT_BOOL, VariantData.boolVal 0⟩ : VARIANT).taggedInt = some 0
      ∧ (sampleWmi.set_T hostOk "Brightness" WmiType.kUint8 300 none).calls.head?
        = some (Call.Put Handle.paramInstance "Brightness"
            ⟨VARTYPE.VT_UI1, VariantData.uintVal 300⟩)
      ∧ (⟨VARTYPE.VT_UI1, VariantData.uintVal 300⟩ : VARIANT).taggedInt = some 44
      ∧ (sampleWmi.set hostOk "Brightness" "50" none).calls.head?
        = some (Call.Put Handle.paramInstance "Brightness"
            ⟨VARTYPE.VT_BSTR, VariantData.bstrVal "50" false⟩)
      ∧ (WinWmi.construct hostOk "ROOT" none none).self = some sampleNoClass
      ∧ sampleNoClass.is_class_name_valid (some "Win32_Process") = false
      ∧ (sampleNoClass.set_T hostOk "Brightness" WmiType.kUint8 50
          (some "Win32_Process")).calls = []
      ∧ (sampleNoClass.set_T hostOk "Brightness" WmiType.kUint8 50
          (some "Win32_Process")).value = none := by
  refine ⟨?_, ?_, ?_, ?_, ?_, ?_, ?_, ?_, ?_⟩ <;> decide

/-- With a numeric type the loop of `get<T>` leaves the object unchanged. -/
theorem get_T_loop_numeric (toT : Int → Int) (variable_name : String) (type : WmiType)
    (objs : IEnumWbemClassObject) (w : WinWmi) (value : Option Int)
    (ht : type ≠ WmiType.kBstr) :
    (get_T_loop toT variable_name type objs (w, value)).1 = w := by
  induction objs generalizing value with
  | nil => rfl
  | cons o rest ih =>
    unfold get_T_loop
    by_cases hhr : (o variable_name).hr = S_OK
    · cases type with
      | kBool => simp [hhr, ih]
      | kBstr => exact absurd rfl ht
      | kUint8 => simp [hhr, ih]
      | kUint32 => simp [hhr, ih]
    · simp [hhr]

/-- With type kBstr the loop of `get<T>` records kWrongDataType as soon as one
object is read, and changes nothing else of the object. -/
theorem get_T_loop_bstr (toT : Int → Int) (variable_name : String)
    (objs : IEnumWbemClassObject) (w : WinWmi)
    (value : Option Int) :
    (get_T_loop toT variable_name WmiType.kBstr objs (w, value)).1
      = if (readableObjects variable_name objs).isEmpty then w
        else { w with last_error_ := WmiError.kWrongDataType } := by
  induction objs generalizing w value with
  | nil => rfl
  | cons o rest ih =>
    unfold get_T_loop
    by_cases hhr : (o variable_name).hr = S_OK
    · have hb : ((o variable_name).hr == S_OK) = true := beq_iff_eq.2 hhr
      have hre : readableObjects variable_name (o :: rest)
          = o :: readableObjects variable_name rest := by
        simp [readableObjects, List.takeWhile, hb]
      have hne : ((o variable_name).hr != S_OK) = false := by simp [hhr]
      rw [hre]
      simp only [hne, Bool.false_eq_true, if_false, ih, List.isEmpty_cons]
      split_ifs <;> rfl
    · have hb : ((o variable_name).hr == S_OK) = false := beq_eq_false_iff_ne.2 hhr
      simp [hhr, readableObjects, List.takeWhile, hb]

/-- The possible results of `get_all`: it never changes the object, except
for recording kEmptyClassName when it rejects the call. -/
theorem get_all_frame (self : WinWmi) (host : Host) (variable_name : String)
    (class_name : Option String) :
    (self.get_all host variable_name class_name).result = none
      ∨ (self.get_all host variable_name class_name).result
        = some (none, { self with last_error_ := WmiError.kEmptyClassName })
      ∨ (self.get_all host variable_name class_name).result = some (none, self)
      ∨ ∃ v, (self.get_all host variable_name class_name).result = some (some v, self) := by
  cases hv : self.is_class_name_valid class_name with
  | false => simp [WinWmi.get_all, hv]
  | true =>
    cases hq : self.create_query class_name with
    | none => simp [WinWmi.get_all, hv, hq]
    | some query =>
      cases hs : self.wbem_service_ with
      | none => simp [WinWmi.get_all, WinWmi.exec_query, hv, hq, hs]
      | some svc =>
        cases hf : FAILED (host.hresult (Call.ExecQuery svc query)) with
        | true => simp [WinWmi.get_all, WinWmi.exec_query, hv, hq, hs, hf]
        | false =>
          cases he : host.enumerator query <;>
            simp [WinWmi.get_all, WinWmi.exec_query, hv, hq, hs, hf, he]

/-- The possible results of the string `get`: it never changes the object,
except for recording kEmptyClassName when it rejects the call. -/
theorem get_frame (self : WinWmi) (host : Host) (variable_name : String)
    (class_name : Option String) :
    (self.get host variable_name class_name).result = none
      ∨ (self.get host variable_name class_name).result
        = some (none, { self with last_error_ := WmiError.kEmptyClassName })
      ∨ ∃ v, (self.get host variable_name class_name).result = some (v, self) := by
  cases hv : self.is_class_name_valid class_name with
  | false => simp [WinWmi.get, hv]
  | true =>
    cases hq : self.create_query class_name with
    | none => simp [WinWmi.get, hv, hq]
    | some query =>
      cases hs : self.wbem_service_ with
      | none => simp [WinWmi.get, WinWmi.exec_query, hv, hq, hs]
      | some svc =>
        cases hf : FAILED (host.hresult (Call.ExecQuery svc query)) with
        | true => simp [WinWmi.get, WinWmi.exec_query, hv, hq, hs, hf]
        | false =>
          cases he : host.enumerator query <;>
            simp [WinWmi.get, WinWmi.exec_query, hv, hq, hs, hf, he]

/-- The possible results of the typed `get<T>`: a rejected call records
kEmptyClassName, a failed query changes nothing, and a call that returns true
leaves the object the loop leaves. -/
theorem get_T_frame (self : WinWmi) (host : Host) (toT : Int → Int)
    (variable_name : String) (type : WmiType)
    (value : Option Int) (class_name : Option String) :
    (self.get_T host toT variable_name type value class_name).result = none
      ∨ (self.get_T host toT variable_name type value class_name).result
        = some ((false, value), { self with last_error_ := WmiError.kEmptyClassName })
      ∨ (self.get_T host toT variable_name type value class_name).result
        = some ((false, value), self)
      ∨ ∃ objs, (self.get_T host toT variable_name type value class_name).result
        = some ((true, (get_T_loop toT variable_name type objs (self, value)).2),
            (get_T_loop toT variable_name type objs (self, value)).1) := by
  cases hv : self.is_class_name_valid class_name with
  | true => simp [WinWmi.get_T, hv]
  | false =>
    cases hq : self.create_query class_name with
    | none => simp [WinWmi.get_T, hv, hq]
    | some query =>
      cases hs : self.wbem_service_ with
      | none => simp [WinWmi.get_T, WinWmi.exec_query, hv, hq, hs]
      | some svc =>
        cases hf : FAILED (host.hresult (Call.ExecQuery svc query)) with
        | true => simp [WinWmi.get_T, WinWmi.exec_query, hv, hq, hs, hf]
        | false =>
          cases he : host.enumerator query with
          | none =>
            refine Or.inr (Or.inr (Or.inr ⟨[], ?_⟩))
            simp [WinWmi.get_T, WinWmi.exec_query, hv, hq, hs, hf, he, get_T_loop]
          | some objs =>
            refine Or.inr (Or.inr (Or.inr ⟨objs, ?_⟩))
            simp [WinWmi.get_T, WinWmi.exec_query, hv, hq, hs, hf, he]

/-- The possible results of the common tail of the `set` members: a returned
true leaves the last error as it was, a returned false records the error of
the failing call; only `result_`, `last_error_` and the ghost
`class_name_freed` change. -/
theorem put_and_exec_frame (self : WinWmi) (host : Host) (variable_name : String)
    (class_name : Option String) (var_cmd : VARIANT) :
    (self.put_and_exec host variable_name class_name var_cmd).result = none
      ∨ (∃ hr, (self.put_and_exec host variable_name class_name var_cmd).result
          = some (false, { self with result_ := hr
                                     last_error_ := WmiError.kFailedPutVariable }))
      ∨ (∃ hr, (self.put_and_exec host variable_name class_name var_cmd).result
          = some (false, { self with result_ := hr
                                     last_error_ := WmiError.kFailedExecMethod }))
      ∨ ∃ hr freed, (self.put_and_exec host variable_name class_name var_cmd).result
          = some (true, { self with result_ := hr, class_name_freed := freed }) := by
  cases hi : self.class_instance_ with
  | none => simp [WinWmi.put_and_exec, hi]
  | some inst =>
    cases h1 : FAILED (host.hresult (Call.Put inst variable_name var_cmd)) with
    | true => simp [WinWmi.put_and_exec, hi, h1]
    | false =>
      cases hs : self.wbem_service_ with
      | none => simp [WinWmi.put_and_exec, hi, hs, h1]
      | some svc =>
        cases h2 : FAILED (host.hresult (Call.ExecMethod svc (self.exec_class class_name)
            self.method_name_ (some inst))) with
        | true => simp [WinWmi.put_and_exec, hi, hs, h1, h2]
        | false =>
          refine Or.inr (Or.inr (Or.inr
            ⟨host.hresult (Call.ExecMethod svc (self.exec_class class_name)
                self.method_name_ (some inst)),
              self.class_name_freed || (class_name.isNone && self.class_name_.isSome), ?_⟩))
          simp [WinWmi.put_and_exec, hi, hs, h1, h2]

/-- The possible results of either `set` member. -/
theorem set_frame (self : WinWmi) (host : Host) (variable_name : String) (text : String)
    (type : WmiType) (value : Int) (class_name : Option String) (r : Run Bool)
    (hr : r = self.set host variable_name text class_name
      ∨ r = self.set_T host variable_name type value class_name) :
    r.result = none
      ∨ (∃ e, e ≠ WmiError.kNone ∧ ∃ res, r.result
          = some (false, { self with result_ := res, last_error_ := e }))
      ∨ ∃ res freed, r.result
          = some (true, { self with result_ := res, class_name_freed := freed }) := by
  have tail : ∀ var_cmd,
      r = self.put_and_exec host variable_name class_name var_cmd →
      r.result = none
        ∨ (∃ e, e ≠ WmiError.kNone ∧ ∃ res, r.result
            = some (false, { self with result_ := res, last_error_ := e }))
        ∨ ∃ res freed, r.result
            = some (true, { self with result_ := res, class_name_freed := freed }) := by
    intro var_cmd h
    rw [h]
    rcases put_and_exec_frame self host variable_name class_name var_cmd
      with h | ⟨res, h⟩ | ⟨res, h⟩ | ⟨res, freed, h⟩
    · exact Or.inl h
    · exact Or.inr (Or.inl ⟨WmiError.kFailedPutVariable, by decide, res, h⟩)
    · exact Or.inr (Or.inl ⟨WmiError.kFailedExecMethod, by decide, res, h⟩)
    · exact Or.inr (Or.inr ⟨res, freed, h⟩)
  cases hv : self.is_class_name_valid class_name with
  | true =>
    refine Or.inr (Or.inl ⟨WmiError.kEmptyClassName, by decide, self.result_, ?_⟩)
    cases hr with
    | inl h => rw [h]; simp [WinWmi.set, hv]
    | inr h => rw [h]; simp [WinWmi.set_T, hv]
  | false =>
    by_cases ht : type = WmiType.kBstr
    · cases hr with
      | inl h =>
        obtain ⟨var_cmd, hrun⟩ := set_is_put_and_exec self host variable_name value text
          WmiType.kBool class_name hv (by decide) r (Or.inl h)
        exact tail var_cmd hrun
      | inr h =>
        refine Or.inr (Or.inl ⟨WmiError.kWrongDataType, by decide, self.result_, ?_⟩)
        rw [h, ht]; simp [WinWmi.set_T, hv]
    · obtain ⟨var_cmd, hrun⟩ := set_is_put_and_exec self host variable_name value text type
        class_name hv ht r hr
      exact tail var_cmd hrun

/-- Writing the three members the member functions write keeps an object
among those a program can hold. -/
theorem builtBy_update (host : Host) (namespace_name : String)
    (class_name method_name : Option String) (w : WinWmi)
    (hw : builtBy host namespace_name class_name method_name w)
    (e : WmiError) (res : HRESULT) (freed : Bool) :
    builtBy host namespace_name class_name method_name
      { w with last_error_ := e, result_ := res, class_name_freed := freed } := by
  obtain ⟨w0, h0, hw0⟩ := hw
  refine ⟨w0, h0, ?_⟩
  rw [hw0]

/-- Every member function that returns leaves an object a program can hold:
the five accessors write nothing but `last_error_`, `result_` and the ghost
`class_name_freed`. -/
theorem builtBy_after_members (built : Host) (namespace_name : String)
    (ctor_class ctor_method : Option String) (self : WinWmi)
    (hw : builtBy built namespace_name ctor_class ctor_method self)
    (host : Host) (toT : Int → Int) (variable_name text : String) (type : WmiType)
    (value : Option Int) (number : Int) (class_name : Option String) (w : WinWmi)
    (h : (self.get_all host variable_name class_name).self = some w
      ∨ (self.get host variable_name class_name).self = some w
      ∨ (self.get_T host toT variable_name type value class_name).self = some w
      ∨ (self.set host variable_name text class_name).self = some w
      ∨ (self.set_T host variable_name type number class_name).self = some w) :
    builtBy built namespace_name ctor_class ctor_method w := by
  have keep : ∀ e res freed, w = { self with
      last_error_ := e, result_ := res, class_name_freed := freed } →
      builtBy built namespace_name ctor_class ctor_method w := by
    intro e res freed hw2
    rw [hw2]
    exact builtBy_update built namespace_name ctor_class ctor_method self hw e res freed
  have hset := set_frame self host variable_name text type number class_name
  rcases h with h | h | h | h | h
  · rcases get_all_frame self host variable_name class_name with g | g | g | ⟨v, g⟩ <;>
      simp only [Run.self, g, Option.map_none', Option.map_some', Option.some.injEq] at h
    · exact absurd h (by simp)
    · exact keep WmiError.kEmptyClassName self.result_ self.class_name_freed h.symm
    · exact keep self.last_error_ self.result_ self.class_name_freed h.symm
    · exact keep self.last_error_ self.result_ self.class_name_freed h.symm
  · rcases get_frame self host variable_name class_name with g | g | ⟨v, g⟩ <;>
      simp only [Run.self, g, Option.map_none', Option.map_some', Option.some.injEq] at h
    · exact absurd h (by simp)
    · exact keep WmiError.kEmptyClassName self.result_ self.class_name_freed h.symm
    · exact keep self.last_error_ self.result_ self.class_name_freed h.symm
  · rcases get_T_frame self host toT variable_name type value class_name
      with g | g | g | ⟨objs, g⟩ <;>
      simp only [Run.self, g, Option.map_none', Option.map_some', Option.some.injEq] at h
    · exact absurd h (by simp)
    · exact keep WmiError.kEmptyClassName self.result_ self.class_name_freed h.symm
    · exact keep self.last_error_ self.result_ self.class_name_freed h.symm
    · by_cases ht : type = WmiType.kBstr
      · subst ht
        rw [get_T_loop_bstr] at h
        split_ifs at h
        · exact keep self.last_error_ self.result_ self.class_name_freed h.symm
        · exact keep WmiError.kWrongDataType self.result_ self.class_name_freed h.symm
      · rw [get_T_loop_numeric _ _ _ _ _ _ ht] at h
        exact keep self.last_error_ self.result_ self.class_name_freed h.symm
  · rcases hset _ (Or.inl rfl) with g | ⟨e, _, res, g⟩ | ⟨res, freed, g⟩ <;>
      simp only [Run.self, g, Option.map_none', Option.map_some', Option.some.injEq] at h
    · exact absurd h (by simp)
    · exact keep e res self.class_name_freed h.symm
    · exact keep self.last_error_ res freed h.symm
  · rcases hset _ (Or.inr rfl) with g | ⟨e, _, res, g⟩ | ⟨res, freed, g⟩ <;>
      simp only [Run.self, g, Option.map_none', Option.map_some', Option.some.injEq] at h
    · exact absurd h (by simp)
    · exact keep e res self.class_name_freed h.symm
    · exact keep self.last_error_ res freed h.symm

/-- C10: no call of get_all, get, get<T>, set or set<T> that returns leaves
GetLastError() at kNone unless it was kNone before; a call that succeeds
(get_all or get returning a value, set or set<T> returning true, get<T>
returning true with a numeric type) leaves GetLastError() as it was, while
get<T> with type kBstr returns true and records kWrongDataType exactly when
an object was read; a get_all, get or get<T> call whose ExecQuery fails leaves
the whole object unchanged; so a failed call can leave kNone behind (first
example) and a successful call can leave an older error behind (second
example). -/
theorem C10_last_error_is_never_cleared (self : WinWmi) (host : Host) (toT : Int → Int)
    (variable_name text : String) (type : WmiType) (value : Option Int) (number : Int)
    (class_name : Option String) :
    ((self.get_all host variable_name class_name).lastError = some WmiError.kNone
        → self.GetLastError = WmiError.kNone)
      ∧ ((self.get host variable_name class_name).lastError = some WmiError.kNone
        → self.GetLastError = WmiError.kNone)
      ∧ ((self.get_T host toT variable_name type value class_name).lastError
          = some WmiError.kNone → self.GetLastError = WmiError.kNone)
      ∧ ((self.set host variable_name text class_name).lastError = some WmiError.kNone
        → self.GetLastError = WmiError.kNone)
      ∧ ((self.set_T host variable_name type number class_name).lastError
          = some WmiError.kNone → self.GetLastError = WmiError.kNone)
      ∧ (∀ v, (self.get_all host variable_name class_name).value = some (some v) →
          (self.get_all host variable_name class_name).lastError = some self.GetLastError)
      ∧ (∀ v, (self.get host variable_name class_name).value = some (some v) →
          (self.get host variable_name class_name).lastError = some self.GetLastError)
      ∧ ((self.set host variable_name text class_name).value = some true →
          (self.set host variable_name text class_name).lastError = some self.GetLastError)
      ∧ ((self.set_T host variable_name type number class_name).value = some true →
          (self.set_T host variable_name type number class_name).lastError
            = some self.GetLastError)
      ∧ (∀ v, type ≠ WmiType.kBstr →
          (self.get_T host toT variable_name type value class_name).value = some (true, v) →
          (self.get_T host toT variable_name type value class_name).lastError
            = some self.GetLastError)
      ∧ (∀ svc query objs, self.wbem_service_ = some svc →
          self.is_class_name_valid class_name = false →
          self.create_query class_name = some query →
          FAILED (host.hresult (Call.ExecQuery svc query)) = false →
          host.enumerator query = some objs →
          (self.get_T host toT variable_name WmiType.kBstr value class_name).value.map Prod.fst
              = some true
            ∧ (self.get_T host toT variable_name WmiType.kBstr value class_name).lastError
              = some (if (readableObjects variable_name objs).isEmpty then self.GetLastError
                  else WmiError.kWrongDataType))
      ∧ (∀ svc query, self.wbem_service_ = some svc →
          self.create_query class_name = some query →
          FAILED (host.hresult (Call.ExecQuery svc query)) = true →
          (self.is_class_name_valid class_name = true →
            self.get_all host variable_name class_name
                = ⟨[Call.ExecQuery svc query], some (none, self)⟩
              ∧ self.get host variable_name class_name
                = ⟨[Call.ExecQuery svc query], some (none, self)⟩)
          ∧ (self.is_class_name_valid class_name = false →
            self.get_T host toT variable_name type value class_name
              = ⟨[Call.ExecQuery svc query], some ((false, value), self)⟩))
      ∧ ((sampleWmi.get_all (hostAnswering
            (Call.ExecQuery Handle.service "SELECT * FROM Win32_Process") E_FAIL) "Name"
            (some "Win32_Process")).value = some none
          ∧ (sampleWmi.get_all (hostAnswering
            (Call.ExecQuery Handle.service "SELECT * FROM Win32_Process") E_FAIL) "Name"
            (some "Win32_Process")).lastError = some WmiError.kNone)
      ∧ ((sampleWmi.get (hostEnumerating [objectWithString "a"]) "Name" none).self
            = some { sampleWmi with last_error_ := WmiError.kEmptyClassName }
          ∧ (({ sampleWmi with last_error_ := WmiError.kEmptyClassName } : WinWmi).get_all
              (hostEnumerating [objectWithString "a"]) "Name" (some "Win32_Process")).value
            = some (some ["a"])
          ∧ (({ sampleWmi with last_error_ := WmiError.kEmptyClassName } : WinWmi).get_all
              (hostEnumerating [objectWithString "a"]) "Name" (some "Win32_Process")).lastError
            = some WmiError.kEmptyClassName) := by
  have hset := set_frame self host variable_name text type number class_name
  refine ⟨?_, ?_, ?_, ?_, ?_, ?_, ?_, ?_, ?_, ?_, ?_, ?_, ?_, ?_⟩
  · rcases get_all_frame self host variable_name class_name with h | h | h | ⟨v, h⟩ <;>
      simp [Run.lastError, WinWmi.GetLastError, h]
  · rcases get_frame self host variable_name class_name with h | h | ⟨v, h⟩ <;>
      simp [Run.lastError, WinWmi.GetLastError, h]
  · rcases get_T_frame self host toT variable_name type value class_name
      with h | h | h | ⟨objs, h⟩
    · simp [Run.lastError, h]
    · simp [Run.lastError, WinWmi.GetLastError, h]
    · simp [Run.lastError, WinWmi.GetLastError, h]
    · by_cases ht : type = WmiType.kBstr
      · subst ht
        simp only [Run.lastError, WinWmi.GetLastError, h, Option.map_some, get_T_loop_bstr]
        split_ifs <;> simp
      · simp [Run.lastError, WinWmi.GetLastError, h, get_T_loop_numeric _ _ _ _ _ _ ht]
  · rcases hset _ (Or.inl rfl) with h | ⟨e, he, res, h⟩ | ⟨res, freed, h⟩
    · simp [Run.lastError, h]
    · simp [Run.lastError, WinWmi.GetLastError, h, he]
    · simp [Run.lastError, WinWmi.GetLastError, h]
  · rcases hset _ (Or.inr rfl) with h | ⟨e, he, res, h⟩ | ⟨res, freed, h⟩
    · simp [Run.lastError, h]
    · simp [Run.lastError, WinWmi.GetLastError, h, he]
    · simp [Run.lastError, WinWmi.GetLastError, h]
  · intro v
    rcases get_all_frame self host variable_name class_name with h | h | h | ⟨w, h⟩ <;>
      simp [Run.lastError, Run.value, WinWmi.GetLastError, h]
  · intro v
    rcases get_frame self host variable_name class_name with h | h | ⟨w, h⟩ <;>
      simp [Run.lastError, Run.value, WinWmi.GetLastError, h]
  · rcases hset _ (Or.inl rfl) with h | ⟨e, he, res, h⟩ | ⟨res, freed, h⟩ <;>
      simp [Run.lastError, Run.value, WinWmi.GetLastError, h]
  · rcases hset _ (Or.inr rfl) with h | ⟨e, he, res, h⟩ | ⟨res, freed, h⟩ <;>
      simp [Run.lastError, Run.value, WinWmi.GetLastError, h]
  · intro v ht
    rcases get_T_frame self host toT variable_name type value class_name
      with h | h | h | ⟨objs, h⟩
    · simp [Run.value, h]
    · simp [Run.value, h]
    · simp [Run.lastError, Run.value, WinWmi.GetLastError, h]
    · simp [Run.lastError, Run.value, WinWmi.GetLastError, h,
        get_T_loop_numeric _ _ _ _ _ _ ht]
  · intro svc query objs hs hv hq hf he
    simp only [WinWmi.get_T, WinWmi.exec_query, hv, hq, hs, hf, he, Run.value, Run.lastError,
      WinWmi.GetLastError, get_T_loop_bstr]
    constructor
    · simp
    · simp only [Bool.false_eq_true, if_false, Option.map_some]
      split_ifs <;> rfl
  · intro svc query hs hq hf
    constructor
    · intro hv
      simp [WinWmi.get_all, WinWmi.get, WinWmi.exec_query, hv, hq, hs, hf]
    · intro hv
      simp [WinWmi.get_T, WinWmi.exec_query, hv, hq, hs, hf]
  · constructor <;> decide
  · refine ⟨?_, ?_, ?_⟩ <;> decide

/-- C10 at a concrete input: an object that carries kEmptyClassName from an
earlier rejected call still reports it after a get_all that returns a value. -/
theorem C10_witness :
    (({ sampleWmi with last_error_ := WmiError.kEmptyClassName } : WinWmi).get_all
        (hostEnumerating [objectWithString "a"]) "Name" (some "Win32_Process")).lastError
      = some WmiError.kEmptyClassName :=
  (C10_last_error_is_never_cleared { sampleWmi with last_error_ := WmiError.kEmptyClassName }
    (hostEnumerating [objectWithString "a"]) toUInt "Name" "x" WmiType.kBool none 0
    (some "Win32_Process")).2.2.2.2.2.1 ["a"] (by decide)

end WinWMI
